import Mathlib

/-!
# SIMShifterBOX: gear-lever state machine, frame codec and button controller

A shallow embedding of `src/main/bmw_shifter.c` / `src/main/bmw_shifter.h`
(the gear-lever state machine and the counter/checksum stamping), of
`src/main/usb_hid.c` (the gamepad button mask) and of the parts of
`src/main/main.c` that feed and read them (frame loop, gear-display emitter,
button controller), followed by theorems about them.

Conventions of the embedding:
* a `uint8_t` byte is a `Nat` (a valid byte is `< 256`);
* `manual_gear` (also a `uint8_t`) is kept as an `Int`, so that statements
  about its sign are not true by typing alone; the `++` on it wraps
  explicitly modulo `2^8`, the guarded `--` cannot underflow;
* the C enum `bmw_gear_t` is an inductive type with the five enumerators;
* a function mutating `bmw_shifter_state_t *state` takes the state and
  returns the new state.
-/

namespace SIMShifterBOX

/-! ## Constants of `bmw_shifter.h` -/

/-- Lever position: centre middle (`bmw_shifter.h`, line 18). -/
abbrev LEVER_POS_CENTER_MIDDLE : Nat := 0x0E
/-- Lever position: pushed up one notch. -/
abbrev LEVER_POS_UP_1 : Nat := 0x1E
/-- Lever position: pushed up two notches. -/
abbrev LEVER_POS_UP_2 : Nat := 0x2E
/-- Lever position: pushed down one notch. -/
abbrev LEVER_POS_DOWN_1 : Nat := 0x3E
/-- Lever position: pushed down two notches. -/
abbrev LEVER_POS_DOWN_2 : Nat := 0x4E
/-- Lever position: centre side (manual gate). -/
abbrev LEVER_POS_CENTER_SIDE : Nat := 0x7E
/-- Lever position: side and up. -/
abbrev LEVER_POS_SIDE_UP : Nat := 0x5E
/-- Lever position: side and down. -/
abbrev LEVER_POS_SIDE_DOWN : Nat := 0x6E

/-- Park button byte: normal. -/
abbrev PARK_BUTTON_NORMAL : Nat := 0xC0
/-- Park button byte: pressed. -/
abbrev PARK_BUTTON_PRESSED : Nat := 0xD5

/-- Gear enumeration `bmw_gear_t` (`bmw_shifter.h`, lines 32-38). -/
inductive bmw_gear_t where
  | GEAR_P
  | GEAR_R
  | GEAR_N
  | GEAR_D
  | GEAR_M
  deriving DecidableEq, Repr

open bmw_gear_t

/-- Shifter state `bmw_shifter_state_t` (`bmw_shifter.h`, lines 59-65). -/
structure bmw_shifter_state_t where
  lever_position : Nat
  park_button : Nat
  current_gear : bmw_gear_t
  manual_gear : Int
  prev_lever_position : Nat
  deriving DecidableEq, Repr

/-! ## Functions of `bmw_shifter.c` -/

/-- The state after `bmw_shifter_init`: `memset` to zero (so `manual_gear = 0`),
then the four assignments (`bmw_shifter.c`, lines 117-123). -/
def bmw_shifter_init : bmw_shifter_state_t :=
  { lever_position := LEVER_POS_CENTER_MIDDLE
    park_button := PARK_BUTTON_NORMAL
    current_gear := GEAR_P
    manual_gear := 0
    prev_lever_position := LEVER_POS_CENTER_MIDDLE }

/-- Lever-up handler `bmw_lever_up` (`bmw_shifter.c`, lines 188-196). -/
def bmw_lever_up (state : bmw_shifter_state_t) : bmw_shifter_state_t :=
  if state.current_gear = GEAR_P then
    { state with current_gear := GEAR_N }
  else if state.current_gear = GEAR_D then
    { state with current_gear := GEAR_N }
  else if state.current_gear = GEAR_N then
    { state with current_gear := GEAR_R }
  else
    state

/-- Lever-down handler `bmw_lever_down` (`bmw_shifter.c`, lines 202-210). -/
def bmw_lever_down (state : bmw_shifter_state_t) : bmw_shifter_state_t :=
  if state.current_gear = GEAR_P then
    { state with current_gear := GEAR_D }
  else if state.current_gear = GEAR_N then
    { state with current_gear := GEAR_D }
  else if state.current_gear = GEAR_R then
    { state with current_gear := GEAR_N }
  else
    state

/-- The `if`/`else if` chain of `bmw_process_lever_position`
(`bmw_shifter.c`, lines 141-173), with `prev` read before it;
`manual_gear++` is the `uint8_t` increment. -/
def lever_rules (state : bmw_shifter_state_t) (lever_pos prev : Nat) : bmw_shifter_state_t :=
  if lever_pos = LEVER_POS_UP_1 ∧ prev = LEVER_POS_CENTER_MIDDLE then
    bmw_lever_up state
  else if lever_pos = LEVER_POS_UP_2 ∧ prev = LEVER_POS_UP_1 then
    bmw_lever_up state
  else if lever_pos = LEVER_POS_DOWN_1 ∧ prev = LEVER_POS_CENTER_MIDDLE then
    bmw_lever_down state
  else if lever_pos = LEVER_POS_DOWN_2 ∧ prev = LEVER_POS_DOWN_1 then
    bmw_lever_down state
  else if lever_pos = LEVER_POS_CENTER_SIDE ∧ prev = LEVER_POS_CENTER_MIDDLE
      ∧ state.current_gear = GEAR_D then
    { state with current_gear := GEAR_M }
  else if lever_pos = LEVER_POS_CENTER_MIDDLE ∧ prev = LEVER_POS_CENTER_SIDE
      ∧ state.current_gear = GEAR_M then
    { state with current_gear := GEAR_D }
  else if prev = LEVER_POS_CENTER_SIDE ∧ state.current_gear = GEAR_M then
    if lever_pos = LEVER_POS_SIDE_UP then
      if state.manual_gear > 0 then
        { state with manual_gear := state.manual_gear - 1 }
      else
        state
    else if lever_pos = LEVER_POS_SIDE_DOWN then
      { state with manual_gear := (state.manual_gear + 1) % 256 }
    else
      state
  else if lever_pos = LEVER_POS_CENTER_MIDDLE ∧ prev ≠ LEVER_POS_CENTER_MIDDLE then
    state
  else
    state

/-- Transition function `bmw_process_lever_position`
(`bmw_shifter.c`, lines 129-182). -/
def bmw_process_lever_position (state : bmw_shifter_state_t) (lever_pos park_button : Nat) :
    bmw_shifter_state_t :=
  if park_button = PARK_BUTTON_PRESSED then
    { state with
      current_gear := GEAR_P
      lever_position := lever_pos
      park_button := park_button
      prev_lever_position := lever_pos }
  else
    let prev := state.prev_lever_position
    let state1 := lever_rules state lever_pos prev
    let state2 := { state1 with lever_position := lever_pos, park_button := park_button }
    if lever_pos ≠ prev then
      { state2 with prev_lever_position := lever_pos }
    else
      state2

/-! ## The frame loop of `main.c` -/

/-- The shifter state after `app_main` has run `bmw_shifter_init` and
`can_rx_task` has passed the readings `(lever_pos, park_button)` of the
received lever frames, in order, to `bmw_process_lever_position`
(`main.c`, lines 372 and 286-291). -/
def shifter_after (frames : List (Nat × Nat)) : bmw_shifter_state_t :=
  frames.foldl (fun st f => bmw_process_lever_position st f.1 f.2) bmw_shifter_init

/-! ## Frame codec of `bmw_shifter.c` -/

/-- CAN identifier of the backlight frame (`bmw_shifter.h`, line 15). -/
abbrev CAN_ID_BACKLIGHT : Nat := 0x202
/-- CAN identifier of the gear-display frame (`bmw_shifter.h`, line 14). -/
abbrev CAN_ID_DISPLAY_GEAR : Nat := 0x3FD

/-- Substitution table `crc_table[256]` (`bmw_shifter.c`, lines 5-22). -/
def crc_table : List Nat :=
  [0x00, 0x1D, 0x3A, 0x27, 0x74, 0x69, 0x4E, 0x53, 0xE8, 0xF5, 0xD2, 0xCF, 0x9C, 0x81, 0xA6, 0xBB,
   0xCD, 0xD0, 0xF7, 0xEA, 0xB9, 0xA4, 0x83, 0x9E, 0x25, 0x38, 0x1F, 0x02, 0x51, 0x4C, 0x6B, 0x76,
   0x87, 0x9A, 0xBD, 0xA0, 0xF3, 0xEE, 0xC9, 0xD4, 0x6F, 0x72, 0x55, 0x48, 0x1B, 0x06, 0x21, 0x3C,
   0x4A, 0x57, 0x70, 0x6D, 0x3E, 0x23, 0x04, 0x19, 0xA2, 0xBF, 0x98, 0x85, 0xD6, 0xCB, 0xEC, 0xF1,
   0x13, 0x0E, 0x29, 0x34, 0x67, 0x7A, 0x5D, 0x40, 0xFB, 0xE6, 0xC1, 0xDC, 0x8F, 0x92, 0xB5, 0xA8,
   0xDE, 0xC3, 0xE4, 0xF9, 0xAA, 0xB7, 0x90, 0x8D, 0x36, 0x2B, 0x0C, 0x11, 0x42, 0x5F, 0x78, 0x65,
   0x94, 0x89, 0xAE, 0xB3, 0xE0, 0xFD, 0xDA, 0xC7, 0x7C, 0x61, 0x46, 0x5B, 0x08, 0x15, 0x32, 0x2F,
   0x59, 0x44, 0x63, 0x7E, 0x2D, 0x30, 0x17, 0x0A, 0xB1, 0xAC, 0x8B, 0x96, 0xC5, 0xD8, 0xFF, 0xE2,
   0x26, 0x3B, 0x1C, 0x01, 0x52, 0x4F, 0x68, 0x75, 0xCE, 0xD3, 0xF4, 0xE9, 0xBA, 0xA7, 0x80, 0x9D,
   0xEB, 0xF6, 0xD1, 0xCC, 0x9F, 0x82, 0xA5, 0xB8, 0x03, 0x1E, 0x39, 0x24, 0x77, 0x6A, 0x4D, 0x50,
   0xA1, 0xBC, 0x9B, 0x86, 0xD5, 0xC8, 0xEF, 0xF2, 0x49, 0x54, 0x73, 0x6E, 0x3D, 0x20, 0x07, 0x1A,
   0x6C, 0x71, 0x56, 0x4B, 0x18, 0x05, 0x22, 0x3F, 0x84, 0x99, 0xBE, 0xA3, 0xF0, 0xED, 0xCA, 0xD7,
   0x35, 0x28, 0x0F, 0x12, 0x41, 0x5C, 0x7B, 0x66, 0xDD, 0xC0, 0xE7, 0xFA, 0xA9, 0xB4, 0x93, 0x8E,
   0xF8, 0xE5, 0xC2, 0xDF, 0x8C, 0x91, 0xB6, 0xAB, 0x10, 0x0D, 0x2A, 0x37, 0x64, 0x79, 0x5E, 0x43,
   0xB2, 0xAF, 0x88, 0x95, 0xC6, 0xDB, 0xFC, 0xE1, 0x5A, 0x47, 0x60, 0x7D, 0x2E, 0x33, 0x14, 0x09,
   0x7F, 0x62, 0x45, 0x58, 0x0B, 0x16, 0x31, 0x2C, 0x97, 0x8A, 0xAD, 0xB0, 0xE3, 0xFE, 0xD9, 0xC4]

/-- The `case id: return seed;` lines of the `switch` in
`get_crc_start_value` (`bmw_shifter.c`, lines 27-58), in source order. -/
def crc_start_cases : List (Nat × Nat) :=
  [(0x08F, 0x75), (0x0A0, 0xBC), (0x0A5, 0x16), (0x0A6, 0xC2),
   (0x0A7, 0x8E), (0x0B0, 0x4C), (0x0C2, 0xD8), (0x0D9, 0x3E),
   (0x0EF, 0x98), (0x12F, 0x60), (0x145, 0x48), (0x163, 0xA0),
   (0x173, 0x13), (0x197, 0x62), (0x199, 0x8F), (0x19A, 0x17),
   (0x19F, 0xEF), (0x1A1, 0x77), (0x1AF, 0xB5), (0x1E1, 0x78),
   (0x1FC, 0x66), (0x207, 0x51), (0x254, 0xB8), (0x297, 0xDF),
   (0x2C5, 0xFC), (0x2E0, 0x5B), (0x2ED, 0x1D), (0x302, 0xC3),
   (0x30B, 0xBE), (0x3A7, 0x05), (0x3F9, 0x38), (0x3FD, 0xD7)]

/-- Seed lookup `get_crc_start_value` (`bmw_shifter.c`, lines 25-61): the
matching `case`, or the `default` value `0x00`. -/
def get_crc_start_value (can_id : Nat) : Nat :=
  match crc_start_cases.lookup can_id with
  | some seed => seed
  | none => 0x00

/-- The frame identifiers that have a `case` in `get_crc_start_value`. -/
def known_can_ids : List Nat := crc_start_cases.map Prod.fst

/-- The counter table `pkt_counters[0x400]` right after start-up: all zero
(`bmw_shifter.c`, line 64). The table is a map from index to byte. -/
def pkt_counters_init : Nat → Nat := fun _ => 0

/-- The loop `for (i = 1; i < data_len; i++) crc = crc_table[crc ^ data[i]]`
(`bmw_shifter.c`, lines 93-95). -/
def crc_loop (crc_start : Nat) (data : List Nat) (data_len : Nat) : Nat :=
  (List.range' 1 (data_len - 1)).foldl
    (fun crc i => crc_table.getD (crc ^^^ data.getD i 0) 0) crc_start

/-- Stamping function `bmw_update_pkt` (`bmw_shifter.c`, lines 74-97): takes
the counter table and the payload, returns the new table and payload. -/
def bmw_update_pkt (pkt_counters : Nat → Nat) (can_id : Nat) (data : List Nat)
    (data_len : Nat) : (Nat → Nat) × List Nat :=
  let crc_start := get_crc_start_value can_id
  if crc_start = 0x00 ∧ can_id ≠ 0x202 then
    (pkt_counters, data)
  else
    let counter := pkt_counters can_id
    let data1 := data.set 1 ((data.getD 1 0 &&& 0xF0) ||| counter)
    let pkt_counters1 := Function.update pkt_counters can_id ((counter + 1) % 15)
    if can_id = 0x202 then
      (pkt_counters1, data1)
    else
      let crc := crc_loop crc_start data1 data_len
      (pkt_counters1, data1.set 0 crc)

/-- The table-driven fold `crc := crc_table[crc XOR b]` over a byte sequence. -/
def crc_fold (seed : Nat) (bytes : List Nat) : Nat :=
  bytes.foldl (fun crc b => crc_table.getD (crc ^^^ b) 0) seed

/-- A sequence of `bmw_update_pkt` calls, each given by its frame identifier
and payload (with `data_len` the payload length); returns the counter table
after the last call. -/
def counters_after (calls : List (Nat × List Nat)) (pkt_counters : Nat → Nat) : Nat → Nat :=
  calls.foldl (fun c call => (bmw_update_pkt c call.1 call.2 call.2.length).1) pkt_counters

/-! ## Gear indication of `bmw_shifter.c` -/

/-- Gear indication byte for P (`bmw_shifter.h`, line 41). -/
abbrev GEAR_IND_P : Nat := 0x20
/-- Gear indication byte for R. -/
abbrev GEAR_IND_R : Nat := 0x40
/-- Gear indication byte for N. -/
abbrev GEAR_IND_N : Nat := 0x60
/-- Gear indication byte for D and M (`bmw_shifter.h`, line 44). -/
abbrev GEAR_IND_D : Nat := 0x81
/-- Backlight default level (`bmw_shifter.h`, line 50). -/
abbrev BACKLIGHT_DEFAULT : Nat := 254

/-- Indication lookup `bmw_get_gear_indication` (`bmw_shifter.c`, lines
103-112); the `default` branch is for values outside the enumeration. -/
def bmw_get_gear_indication (gear : bmw_gear_t) : Nat :=
  match gear with
  | GEAR_P => GEAR_IND_P
  | GEAR_R => GEAR_IND_R
  | GEAR_N => GEAR_IND_N
  | GEAR_D => GEAR_IND_D
  | GEAR_M => GEAR_IND_D

/-! ## HID gamepad of `usb_hid.c` -/

/-- Logical buttons `hid_button_t` (`usb_hid.h`, lines 13-22). -/
inductive hid_button_t where
  | HID_BUTTON_P
  | HID_BUTTON_N
  | HID_BUTTON_R
  | HID_BUTTON_D
  | HID_BUTTON_M
  | HID_BUTTON_PLUS
  | HID_BUTTON_MINUS
  | HID_BUTTON_UNLOCK
  deriving DecidableEq, Repr

/-- Actions `hid_action_t` (`usb_hid.h`, lines 25-28). -/
inductive hid_action_t where
  | HID_ACTION_PRESS
  | HID_ACTION_RELEASE
  deriving DecidableEq, Repr

open hid_button_t hid_action_t

/-- The status codes `usb_hid.c` returns. -/
inductive esp_err_t where
  | ESP_OK
  | ESP_ERR_INVALID_STATE
  | ESP_ERR_INVALID_ARG
  | ESP_FAIL
  deriving DecidableEq, Repr

open esp_err_t

/-- Report structure `custom_gamepad_report_t` (`usb_hid.c`, lines 102-106). -/
structure custom_gamepad_report_t where
  x : Int
  y : Int
  z : Int
  rz : Int
  rx : Int
  ry : Int
  hat : Nat
  buttons : Nat
  deriving DecidableEq, Repr

/-- What `usb_hid.c` observes of the USB stack: `hid_mounted_ready` is the
value of `tud_mounted() && tud_hid_n_ready(0)`, `report_accepted` the result
of `tud_hid_n_report`. -/
structure usb_host_t where
  hid_mounted_ready : Bool
  report_accepted : Bool
  deriving DecidableEq, Repr

/-- Readiness test `usb_hid_is_ready` (`usb_hid.c`, lines 141-144). -/
def usb_hid_is_ready (host : usb_host_t) : Bool := host.hid_mounted_ready

/-- Button numbering `button_to_gamepad_number` (`usb_hid.c`, lines 148-161). -/
def button_to_gamepad_number (button : hid_button_t) : Nat :=
  match button with
  | HID_BUTTON_N => 1
  | HID_BUTTON_R => 2
  | HID_BUTTON_D => 3
  | HID_BUTTON_M => 4
  | HID_BUTTON_P => 5
  | HID_BUTTON_PLUS => 30
  | HID_BUTTON_MINUS => 31
  | HID_BUTTON_UNLOCK => 32

/-- Report transmission `usb_hid_send_gamepad_report` (`usb_hid.c`, lines
163-179). -/
def usb_hid_send_gamepad_report (host : usb_host_t) : esp_err_t :=
  if ¬ usb_hid_is_ready host then ESP_ERR_INVALID_STATE
  else if ¬ host.report_accepted then ESP_FAIL
  else ESP_OK

/-- Button update `usb_hid_send_button` (`usb_hid.c`, lines 181-208): returns
the status and the new report; `~(1UL << bit)` is the 32-bit complement. -/
def usb_hid_send_button (host : usb_host_t) (gamepad_report : custom_gamepad_report_t)
    (button : hid_button_t) (action : hid_action_t) : esp_err_t × custom_gamepad_report_t :=
  if ¬ usb_hid_is_ready host then
    (ESP_ERR_INVALID_STATE, gamepad_report)
  else
    let button_num := button_to_gamepad_number button
    if button_num = 0 ∨ button_num > 32 then
      (ESP_ERR_INVALID_ARG, gamepad_report)
    else
      let button_bit := button_num - 1
      let report1 :=
        if action = HID_ACTION_PRESS then
          { gamepad_report with buttons := gamepad_report.buttons ||| (1 <<< button_bit) }
        else
          { gamepad_report with
            buttons := gamepad_report.buttons &&& (0xFFFFFFFF ^^^ (1 <<< button_bit)) }
      (usb_hid_send_gamepad_report host, report1)

/-! ## Button controller and gear-display emitter of `main.c` -/

/-- The value `UINT32_MAX`. -/
abbrev UINT32_MAX : Nat := 0xFFFFFFFF

/-- The global and function-static variables of `main.c` (lines 16-33, 47,
118-119, 437) together with `gamepad_report` of `usb_hid.c` and
`pkt_counters` of `bmw_shifter.c`. `hid_calls` is a ghost log of the
`usb_hid_send_button` calls made from `main.c`, oldest first. The write-only
copy `prev_shifter_state` is left out. -/
structure main_state_t where
  shifter_state : bmw_shifter_state_t
  backlight_level : Nat
  shifter_connected : Bool
  shifter_state_initialized : Bool
  last_heartbeat_time : Nat
  current_gear_indication : Nat
  button_press_time : Nat
  pressed_button : hid_button_t
  button_is_pressed : Bool
  button_should_hold : Bool
  gear_display_msg : List Nat
  backlight_msg : List Nat
  prev_gear_indication : Nat
  last_lever_pos : Nat
  last_was_m_mode : Bool
  was_connected : Bool
  gamepad_report : custom_gamepad_report_t
  pkt_counters : Nat → Nat
  hid_calls : List (hid_button_t × hid_action_t)

/-- The state when `app_main` has finished its initialisation (`main.c`, lines
16-33 and 372-406; `usb_hid_init`, lines 133-134). -/
def main_state_init : main_state_t :=
  { shifter_state := bmw_shifter_init
    backlight_level := BACKLIGHT_DEFAULT
    shifter_connected := false
    shifter_state_initialized := false
    last_heartbeat_time := 0
    current_gear_indication := GEAR_IND_P
    button_press_time := 0
    pressed_button := HID_BUTTON_P
    button_is_pressed := false
    button_should_hold := false
    gear_display_msg := [0, 0x00, GEAR_IND_P, 0x0C, 0xFF]
    backlight_msg := [BACKLIGHT_DEFAULT, 0x00]
    prev_gear_indication := 0
    last_lever_pos := 0
    last_was_m_mode := false
    was_connected := false
    gamepad_report := { x := 0, y := 0, z := 0, rz := 0, rx := 0, ry := 0, hat := 8, buttons := 0 }
    pkt_counters := pkt_counters_init
    hid_calls := [] }

/-- A call `usb_hid_send_button(button, action)` from `main.c`, whose return
value is ignored there. -/
def send_button (host : usb_host_t) (st : main_state_t) (button : hid_button_t)
    (action : hid_action_t) : main_state_t :=
  { st with
    gamepad_report := (usb_hid_send_button host st.gamepad_report button action).2
    hid_calls := st.hid_calls ++ [(button, action)] }

/-- The release block shared by the controller (`main.c`, lines 61-64 and
182-185): release the tracked button and reset the press state. -/
def release_pressed_button (host : usb_host_t) (st : main_state_t) : main_state_t :=
  { send_button host st st.pressed_button HID_ACTION_RELEASE with
    button_is_pressed := false
    button_press_time := 0
    button_should_hold := false }

/-- The `switch (current_gear_indication)` of
`update_hid_buttons_from_gear_indication` (`main.c`, lines 68-107); `now` is
the value of `xTaskGetTickCount()`. -/
def press_for_indication (host : usb_host_t) (now : Nat) (st : main_state_t) : main_state_t :=
  if st.current_gear_indication = 0x20 then
    st
  else if st.current_gear_indication = 0x40 then
    { send_button host st HID_BUTTON_R HID_ACTION_PRESS with
      pressed_button := HID_BUTTON_R
      button_is_pressed := true
      button_press_time := UINT32_MAX
      button_should_hold := true }
  else if st.current_gear_indication = 0x60 then
    { send_button host st HID_BUTTON_N HID_ACTION_PRESS with
      pressed_button := HID_BUTTON_N
      button_is_pressed := true
      button_press_time := now
      button_should_hold := false }
  else if st.current_gear_indication = 0x80 then
    { send_button host st HID_BUTTON_D HID_ACTION_PRESS with
      pressed_button := HID_BUTTON_D
      button_is_pressed := true
      button_press_time := now
      button_should_hold := false }
  else if st.current_gear_indication = 0x81 then
    st
  else
    st

/-- Gear-button controller `update_hid_buttons_from_gear_indication`
(`main.c`, lines 42-110). -/
def update_hid_buttons_from_gear_indication (host : usb_host_t) (now : Nat)
    (st : main_state_t) : main_state_t :=
  if ¬ usb_hid_is_ready host then
    st
  else if st.current_gear_indication = st.prev_gear_indication then
    if st.current_gear_indication = 0x40 ∧ st.button_is_pressed
        ∧ st.pressed_button = HID_BUTTON_R then
      st
    else
      st
  else
    let st1 :=
      if st.button_is_pressed
          ∧ ¬ (st.current_gear_indication = 0x40 ∧ st.pressed_button = HID_BUTTON_R) then
        release_pressed_button host st
      else
        st
    let st2 := press_for_indication host now st1
    { st2 with prev_gear_indication := st2.current_gear_indication }

/-- Plus/minus controller `update_hid_plus_minus_buttons` (`main.c`, lines
113-156). -/
def update_hid_plus_minus_buttons (host : usb_host_t) (now : Nat) (st : main_state_t) :
    main_state_t :=
  if ¬ usb_hid_is_ready host then
    st
  else
    let is_m_mode : Bool := decide (st.shifter_state.current_gear = GEAR_M)
    if st.shifter_state.lever_position ≠ st.last_lever_pos ∨ is_m_mode ≠ st.last_was_m_mode then
      let st1 :=
        if st.button_is_pressed ∧ (st.pressed_button = HID_BUTTON_PLUS
            ∨ st.pressed_button = HID_BUTTON_MINUS) then
          { send_button host st st.pressed_button HID_ACTION_RELEASE with
            button_is_pressed := false
            button_press_time := 0 }
        else
          st
      let st2 :=
        if is_m_mode then
          if st1.shifter_state.lever_position = LEVER_POS_SIDE_UP then
            { send_button host st1 HID_BUTTON_PLUS HID_ACTION_PRESS with
              pressed_button := HID_BUTTON_PLUS
              button_is_pressed := true
              button_press_time := now }
          else if st1.shifter_state.lever_position = LEVER_POS_SIDE_DOWN then
            { send_button host st1 HID_BUTTON_MINUS HID_ACTION_PRESS with
              pressed_button := HID_BUTTON_MINUS
              button_is_pressed := true
              button_press_time := now }
          else
            st1
        else
          st1
      { st2 with
        last_lever_pos := st2.shifter_state.lever_position
        last_was_m_mode := is_m_mode }
    else
      st

/-- The release check of `hid_update_task` (`main.c`, lines 177-188). `now` is
the value of `xTaskGetTickCount()`, `press_ticks` the value of
`pdMS_TO_TICKS(BUTTON_PRESS_DURATION_MS)` with `BUTTON_PRESS_DURATION_MS = 80`;
`now - button_press_time` is the `uint32_t` difference. -/
def hid_release_check (host : usb_host_t) (now press_ticks : Nat) (st : main_state_t) :
    main_state_t :=
  if st.button_is_pressed ∧ st.button_press_time ≠ 0 ∧ st.button_press_time ≠ UINT32_MAX
      ∧ ¬ st.button_should_hold then
    if (now + 2 ^ 32 - st.button_press_time) % 2 ^ 32 ≥ press_ticks then
      release_pressed_button host st
    else
      st
  else
    st

/-- One iteration of the loop of `hid_update_task` (`main.c`, lines 176-193);
the tick count is read as the same `now` throughout the iteration. -/
def hid_update_task (host : usb_host_t) (now press_ticks : Nat) (st : main_state_t) :
    main_state_t :=
  if usb_hid_is_ready host ∧ st.shifter_state_initialized then
    let st1 := hid_release_check host now press_ticks st
    let st2 := update_hid_buttons_from_gear_indication host now st1
    update_hid_plus_minus_buttons host now st2
  else
    st

/-- The indication `gear_ind` computed by `timer_gear_display_callback`
(`main.c`, lines 201-207). -/
def display_gear_ind (s : bmw_shifter_state_t) : Nat :=
  if s.current_gear = GEAR_M ∧ s.lever_position = LEVER_POS_CENTER_SIDE then
    0x81
  else
    bmw_get_gear_indication s.current_gear

/-- Gear-display emitter `timer_gear_display_callback` (`main.c`, lines
199-212): stores the indication in the message (byte 2) and in
`current_gear_indication`, then stamps the 5-byte message. -/
def timer_gear_display_callback (st : main_state_t) : main_state_t :=
  let gear_ind := display_gear_ind st.shifter_state
  let msg := st.gear_display_msg.set 2 gear_ind
  { st with
    gear_display_msg := (bmw_update_pkt st.pkt_counters CAN_ID_DISPLAY_GEAR msg 5).2
    current_gear_indication := gear_ind
    pkt_counters := (bmw_update_pkt st.pkt_counters CAN_ID_DISPLAY_GEAR msg 5).1 }

/-- Backlight emitter `timer_backlight_callback` (`main.c`, lines 228-235):
copies `backlight_level` into byte 0 of the backlight message, which is then
transmitted. -/
def timer_backlight_callback (st : main_state_t) : main_state_t :=
  { st with backlight_msg := st.backlight_msg.set 0 st.backlight_level }

/-- The handling of a received lever-position frame (identifier 0x197, at
least 4 data bytes) in `can_rx_task` (`main.c`, lines 286-303), with
`update_hid_buttons_from_shifter` (lines 159-169); `now` is the tick count
read at reception. -/
def can_rx_lever_frame (now lever_pos park_button : Nat) (st : main_state_t) : main_state_t :=
  { st with
    shifter_state := bmw_process_lever_position st.shifter_state lever_pos park_button
    shifter_state_initialized := true
    shifter_connected := true
    last_heartbeat_time := now }

/-- The handling of a received heartbeat frame (identifier 0x55E) in
`can_rx_task` (`main.c`, lines 310-313). -/
def can_rx_heartbeat_frame (now : Nat) (st : main_state_t) : main_state_t :=
  { st with shifter_connected := true, last_heartbeat_time := now }

/-- The seven `usb_hid_send_button(..., HID_ACTION_RELEASE)` calls of the
connection-loss block (`main.c`, lines 448-454). -/
def release_all_buttons (host : usb_host_t) (st : main_state_t) : main_state_t :=
  send_button host
    (send_button host
      (send_button host
        (send_button host
          (send_button host
            (send_button host
              (send_button host st HID_BUTTON_P HID_ACTION_RELEASE)
              HID_BUTTON_R HID_ACTION_RELEASE)
            HID_BUTTON_N HID_ACTION_RELEASE)
          HID_BUTTON_D HID_ACTION_RELEASE)
        HID_BUTTON_M HID_ACTION_RELEASE)
      HID_BUTTON_PLUS HID_ACTION_RELEASE)
    HID_BUTTON_MINUS HID_ACTION_RELEASE

/-- One iteration of the supervisory loop of `app_main` after its delay
(`main.c`, lines 436-463). `now` is the value of `xTaskGetTickCount()`,
`timeout_ticks` the value of `pdMS_TO_TICKS(2000)`; `now - last_heartbeat_time`
is the `uint32_t` difference. -/
def app_main_loop (host : usb_host_t) (now timeout_ticks : Nat) (st : main_state_t) :
    main_state_t :=
  let st1 :=
    if st.shifter_connected
        ∧ (now + 2 ^ 32 - st.last_heartbeat_time) % 2 ^ 32 > timeout_ticks then
      { st with shifter_connected := false }
    else
      st
  let st2 :=
    if st1.was_connected ∧ ¬ st1.shifter_connected ∧ usb_hid_is_ready host then
      { release_all_buttons host st1 with
        shifter_state_initialized := false
        current_gear_indication := 0
        button_is_pressed := false
        button_press_time := 0
        button_should_hold := false }
    else
      st1
  { st2 with was_connected := st2.shifter_connected }

/-- The `usb_hid_send_button` calls made between state `old` and state `new`. -/
def calls_since (old new : main_state_t) : List (hid_button_t × hid_action_t) :=
  new.hid_calls.drop old.hid_calls.length

/-- The controller holds R: R is the tracked pressed button with the hold
marker and hold flag, the last evaluated indication is R, and bit 1 (gamepad
button 2) of the button mask is set. -/
def R_is_held (st : main_state_t) : Prop :=
  st.button_is_pressed = true ∧ st.pressed_button = HID_BUTTON_R
  ∧ st.button_press_time = UINT32_MAX ∧ st.button_should_hold = true
  ∧ st.prev_gear_indication = 0x40 ∧ st.gamepad_report.buttons.testBit 1 = true

instance (st : main_state_t) : Decidable (R_is_held st) :=
  inferInstanceAs (Decidable (_ ∧ _))

/-- The C library function `strstr`: the rest of `haystack` from the first
occurrence of `needle` on, or `none` (the null pointer). -/
def strstr : List Char → List Char → Option (List Char)
  | [], needle => if needle = [] then some [] else none
  | c :: rest, needle =>
    if needle.isPrefixOf (c :: rest) then some (c :: rest) else strstr rest needle

/-- The read `str[i]` of a C string: a character of the string, the
terminator at index `length`, nothing beyond. -/
def c_str_at (str : List Char) (i : Nat) : Option Char :=
  if i < str.length then some (str.getD i (Char.ofNat 0))
  else if i = str.length then some (Char.ofNat 0)
  else none

/-- The four output parameters of `serial_process_received_data`. -/
structure serial_out_t where
  backlight_level : Nat
  gear_indication : bmw_gear_t
  hid_button : Int
  hid_action : Int
  deriving DecidableEq, Repr

/-- The `switch (button_char)` of the parser (`serial_protocol.c`, lines
86-97): the button number, or `none` for the `default` branch. -/
def button_of_char (button_char : Char) : Option Int :=
  if button_char = 'P' then some 0
  else if button_char = 'N' then some 1
  else if button_char = 'R' then some 2
  else if button_char = 'D' then some 3
  else if button_char = 'M' then some 4
  else if button_char = '+' then some 5
  else if button_char = '-' then some 6
  else if button_char = 'U' then some 7
  else if button_char = 'u' then some 7
  else none

/-- The `switch (gear_char)` of the parser (`serial_protocol.c`, lines 66-73):
the gear, or `none` for the `default` branch. -/
def gear_of_char (gear_char : Char) : Option bmw_gear_t :=
  if gear_char = 'P' then some GEAR_P
  else if gear_char = 'R' then some GEAR_R
  else if gear_char = 'N' then some GEAR_N
  else if gear_char = 'D' then some GEAR_D
  else if gear_char = 'M' then some GEAR_M
  else none

/-- Command parser `serial_process_received_data` (`serial_protocol.c`, lines
44-115), called with four non-null output pointers whose current contents
are `out`: returns the `bool` result and the contents of the outputs. -/
def serial_process_received_data (atoi : List Char → Int) (json_str : List Char)
    (out : serial_out_t) : Option (Bool × serial_out_t) :=
  if (strstr json_str "\"type\":\"set_backlight\"".toList).isSome then
    match strstr json_str "\"level\":".toList with
    | some level_str =>
      let level := atoi (level_str.drop 8)
      if level ≥ 0 ∧ level ≤ 254 then
        some (true, { out with backlight_level := level.toNat })
      else
        some (false, out)
    | none => some (false, out)
  else if (strstr json_str "\"type\":\"set_gear_indication\"".toList).isSome then
    match strstr json_str "\"gear\":\"".toList with
    | some gear_str =>
      match c_str_at gear_str 9 with
      | some gear_char =>
        match gear_of_char gear_char with
        | some gear => some (true, { out with gear_indication := gear })
        | none => some (false, out)
      | none => none
    | none => some (false, out)
  else if (strstr json_str "\"type\":\"hid_button\"".toList).isSome then
    match strstr json_str "\"button\":\"".toList, strstr json_str "\"action\":\"".toList with
    | some button_str, some action_str =>
      match c_str_at button_str 10 with
      | some button_char =>
        match button_of_char button_char with
        | some button =>
          if (action_str.drop 10).take 5 = "press".toList then
            some (true, { out with hid_button := button, hid_action := 0 })
          else if (action_str.drop 10).take 7 = "release".toList then
            some (true, { out with hid_button := button, hid_action := 1 })
          else
            some (false, out)
        | none => some (false, out)
      | none => none
    | _, _ => some (false, out)
  else
    some (false, out)

/-- The cast `(hid_button_t)hid_button` for the values of the enumeration. -/
def hid_button_of_int (n : Int) : Option hid_button_t :=
  if n = 0 then some HID_BUTTON_P
  else if n = 1 then some HID_BUTTON_N
  else if n = 2 then some HID_BUTTON_R
  else if n = 3 then some HID_BUTTON_D
  else if n = 4 then some HID_BUTTON_M
  else if n = 5 then some HID_BUTTON_PLUS
  else if n = 6 then some HID_BUTTON_MINUS
  else if n = 7 then some HID_BUTTON_UNLOCK
  else none

/-- The cast `(hid_action_t)hid_action` as `usb_hid_send_button` reads it:
`HID_ACTION_PRESS` for 0, the release branch otherwise. -/
def hid_action_of_int (n : Int) : hid_action_t :=
  if n = 0 then HID_ACTION_PRESS else HID_ACTION_RELEASE

/-- The handling of one received command in `serial_rx_task` (`main.c`, lines
333-354). The gear output `new_gear` is not used by the caller; a command on
which the parser reads out of bounds is left without effect. -/
def serial_rx_command (host : usb_host_t) (atoi : List Char → Int) (json_str : List Char)
    (st : main_state_t) : main_state_t :=
  match serial_process_received_data atoi json_str
      { backlight_level := st.backlight_level
        gear_indication := st.shifter_state.current_gear
        hid_button := -1
        hid_action := -1 } with
  | some (true, out) =>
    let st1 :=
      if out.backlight_level ≠ st.backlight_level then
        { st with backlight_level := out.backlight_level }
      else
        st
    if out.hid_button ≥ 0 ∧ out.hid_action ≥ 0 then
      match hid_button_of_int out.hid_button with
      | some button => send_button host st1 button (hid_action_of_int out.hid_action)
      | none => st1
    else
      st1
  | _ => st

/-! ## The activities of the program as events -/

/-- One step of one of the concurrently scheduled activities of `main.c`, each
taken as a whole: a received lever or heartbeat frame (`can_rx_task`), a firing
of the gear-display or backlight timer, an iteration of `hid_update_task`, an
iteration of the supervisory loop of `app_main`, a received serial command
(`serial_rx_task`); with the tick count and the USB host status it observes. -/
inductive event_t where
  | lever_frame (now lever_pos park_button : Nat)
  | heartbeat_frame (now : Nat)
  | gear_display_timer
  | backlight_timer
  | hid_tick (host : usb_host_t) (now : Nat)
  | supervisor (host : usb_host_t) (now : Nat)
  | serial_command (host : usb_host_t) (json_str : List Char)

/-- The effect of one event; `press_ticks` and `timeout_ticks` are the values
of `pdMS_TO_TICKS(80)` and `pdMS_TO_TICKS(2000)`. -/
def apply_event (atoi : List Char → Int) (press_ticks timeout_ticks : Nat)
    (st : main_state_t) : event_t → main_state_t
  | event_t.lever_frame now lever_pos park_button =>
    can_rx_lever_frame now lever_pos park_button st
  | event_t.heartbeat_frame now => can_rx_heartbeat_frame now st
  | event_t.gear_display_timer => timer_gear_display_callback st
  | event_t.backlight_timer => timer_backlight_callback st
  | event_t.hid_tick host now => hid_update_task host now press_ticks st
  | event_t.supervisor host now => app_main_loop host now timeout_ticks st
  | event_t.serial_command host json_str => serial_rx_command host atoi json_str st

/-- The program state after a sequence of events from `main_state_init`. -/
def state_after (atoi : List Char → Int) (press_ticks timeout_ticks : Nat)
    (events : List event_t) : main_state_t :=
  events.foldl (apply_event atoi press_ticks timeout_ticks) main_state_init

/-- The two variables the backlight emitter works on. -/
def backlight_vars (st : main_state_t) : Nat × List Nat := (st.backlight_level, st.backlight_msg)

/-- The backlight level is in range and so is the level byte of the 2-byte
backlight message. -/
def backlight_in_range (st : main_state_t) : Prop :=
  st.backlight_level ≤ 254 ∧ st.backlight_msg.length = 2 ∧ st.backlight_msg.getD 0 0 ≤ 254

/-- The loop of `bmw_update_pkt` (`bmw_shifter.c`, lines 93-95) with every
array access checked: `data[i]` against the payload length, `crc_table[...]`
against the 256 entries of the table; `none` is an out-of-bounds access. -/
def crc_loop_checked (crc_start : Nat) (data : List Nat) (data_len : Nat) : Option Nat :=
  (List.range' 1 (data_len - 1)).foldlM
    (fun crc i =>
      match data[i]? with
      | some b => crc_table[crc ^^^ b]?
      | none => none) crc_start

/-- Stamping function `bmw_update_pkt` (`bmw_shifter.c`, lines 74-97) with
every array access checked, in source order: `pkt_counters[can_id]` against
the 0x400 entries of the counter table, `data[1]`, the accesses of the loop,
and `data[0]`; `none` is an out-of-bounds access. -/
def bmw_update_pkt_checked (pkt_counters : Nat → Nat) (can_id : Nat) (data : List Nat)
    (data_len : Nat) : Option ((Nat → Nat) × List Nat) :=
  let crc_start := get_crc_start_value can_id
  if crc_start = 0x00 ∧ can_id ≠ 0x202 then
    some (pkt_counters, data)
  else if can_id < 0x400 then
    let counter := pkt_counters can_id
    match data[1]? with
    | some byte1 =>
      let data1 := data.set 1 ((byte1 &&& 0xF0) ||| counter)
      let pkt_counters1 := Function.update pkt_counters can_id ((counter + 1) % 15)
      if can_id = 0x202 then
        some (pkt_counters1, data1)
      else
        match crc_loop_checked crc_start data1 data_len with
        | some crc => if 0 < data1.length then some (pkt_counters1, data1.set 0 crc) else none
        | none => none
    | none => none
  else
    none

/-! ## The rules of the transition policy, as the specification words them -/

/-- The pair `(prev, lever)` together with the gear matches one of the
transition rules: the four up/down edges, centre to side in D, side to
centre in M, side-up or side-down with `prev` at side in M. -/
def matches_transition_rule (gear : bmw_gear_t) (prev lever : Nat) : Prop :=
  (prev = LEVER_POS_CENTER_MIDDLE ∧ lever = LEVER_POS_UP_1)
  ∨ (prev = LEVER_POS_UP_1 ∧ lever = LEVER_POS_UP_2)
  ∨ (prev = LEVER_POS_CENTER_MIDDLE ∧ lever = LEVER_POS_DOWN_1)
  ∨ (prev = LEVER_POS_DOWN_1 ∧ lever = LEVER_POS_DOWN_2)
  ∨ (prev = LEVER_POS_CENTER_MIDDLE ∧ lever = LEVER_POS_CENTER_SIDE ∧ gear = GEAR_D)
  ∨ (prev = LEVER_POS_CENTER_SIDE ∧ lever = LEVER_POS_CENTER_MIDDLE ∧ gear = GEAR_M)
  ∨ (prev = LEVER_POS_CENTER_SIDE ∧ gear = GEAR_M
      ∧ (lever = LEVER_POS_SIDE_UP ∨ lever = LEVER_POS_SIDE_DOWN))

instance (gear : bmw_gear_t) (prev lever : Nat) :
    Decidable (matches_transition_rule gear prev lever) :=
  inferInstanceAs (Decidable (_ ∨ _))

/-- The lever byte is one of the eight defined positions. -/
def is_defined_position (lever : Nat) : Prop :=
  lever = LEVER_POS_CENTER_MIDDLE ∨ lever = LEVER_POS_UP_1 ∨ lever = LEVER_POS_UP_2
  ∨ lever = LEVER_POS_DOWN_1 ∨ lever = LEVER_POS_DOWN_2 ∨ lever = LEVER_POS_CENTER_SIDE
  ∨ lever = LEVER_POS_SIDE_UP ∨ lever = LEVER_POS_SIDE_DOWN

instance (lever : Nat) : Decidable (is_defined_position lever) :=
  inferInstanceAs (Decidable (_ ∨ _))

/-! ## The bitwise CRC-8 with polynomial 0x1D, as the specification words it -/

/-- One bit step of the CRC-8 with polynomial 0x1D: shift left by one bit
modulo 256, XOR with 0x1D if the bit shifted out was 1. -/
def crc8_shift (x : Nat) : Nat :=
  if x / 128 % 2 = 1 then (x * 2 % 256) ^^^ 0x1D else x * 2 % 256

/-- Eight bit steps from the value `i`. -/
def crc8_of_index (i : Nat) : Nat := Nat.iterate crc8_shift 8 i

/-- The bitwise CRC-8 with polynomial 0x1D over a byte sequence: each byte is
XORed into the register, which then takes eight bit steps. -/
def crc8_bitwise (seed : Nat) (bytes : List Nat) : Nat :=
  bytes.foldl (fun crc b => crc8_of_index (crc ^^^ b)) seed

/-! ## Concrete states and frame sequences used as instances -/

/-- A state in D, lever at centre, with `manual_gear = 3`. -/
def drive_at_center : bmw_shifter_state_t :=
  { lever_position := LEVER_POS_CENTER_MIDDLE
    park_button := PARK_BUTTON_NORMAL
    current_gear := GEAR_D
    manual_gear := 3
    prev_lever_position := LEVER_POS_CENTER_MIDDLE }

/-- A state in M, lever at side, with the given `manual_gear`. -/
def manual_at_side (mg : Int) : bmw_shifter_state_t :=
  { lever_position := LEVER_POS_CENTER_SIDE
    park_button := PARK_BUTTON_NORMAL
    current_gear := GEAR_M
    manual_gear := mg
    prev_lever_position := LEVER_POS_CENTER_SIDE }

/-- The readings centre to down-1 (P to D), back to centre, centre to side
(D to M), park button normal throughout. -/
def frames_into_manual : List (Nat × Nat) :=
  [(LEVER_POS_DOWN_1, PARK_BUTTON_NORMAL), (LEVER_POS_CENTER_MIDDLE, PARK_BUTTON_NORMAL),
   (LEVER_POS_CENTER_SIDE, PARK_BUTTON_NORMAL)]

/-- One tap of the lever at the side gate: side-down, then back to side. -/
def frames_tap_down : List (Nat × Nat) :=
  [(LEVER_POS_SIDE_DOWN, PARK_BUTTON_NORMAL), (LEVER_POS_CENTER_SIDE, PARK_BUTTON_NORMAL)]

/-- `n` taps of the lever at the side gate. -/
def frames_taps_down : Nat → List (Nat × Nat)
  | 0 => []
  | n + 1 => frames_tap_down ++ frames_taps_down n

/-- A USB host that is mounted, ready, and accepts reports. -/
def host_ready : usb_host_t := { hid_mounted_ready := true, report_accepted := true }

/-- The program state after the first lever frame centre to down-1 (P to D)
has been processed: gear D, lever not at side, state marked initialised and
connected by `can_rx_task` (`main.c`, lines 291-303 and 161-162). -/
def state_in_drive : main_state_t :=
  { main_state_init with
    shifter_state := shifter_after [(LEVER_POS_DOWN_1, PARK_BUTTON_NORMAL)]
    shifter_state_initialized := true
    shifter_connected := true }

/-- The program state after the first lever frame centre to up-1 (P to N). -/
def state_in_neutral : main_state_t :=
  { main_state_init with
    shifter_state := shifter_after [(LEVER_POS_UP_1, PARK_BUTTON_NORMAL)]
    shifter_state_initialized := true
    shifter_connected := true }

/-- The program state in M with the lever at side. -/
def state_in_manual_side : main_state_t :=
  { main_state_init with
    shifter_state := manual_at_side 2
    shifter_state_initialized := true
    shifter_connected := true }

/-- The program state in R right after the controller has pressed R. -/
def reverse_pressed : main_state_t :=
  update_hid_buttons_from_gear_indication host_ready 500
    (timer_gear_display_callback
      { main_state_init with
        shifter_state := shifter_after [(LEVER_POS_UP_1, PARK_BUTTON_NORMAL),
          (LEVER_POS_UP_2, PARK_BUTTON_NORMAL)]
        shifter_state_initialized := true
        shifter_connected := true })

/-- A USB host that is not mounted. -/
def host_not_ready : usb_host_t := { hid_mounted_ready := false, report_accepted := false }

/-- The program state in R with R held, after a lever frame at tick 900 and a
supervisory iteration at tick 1000 that saw the shifter connected. -/
def reverse_held_connected : main_state_t :=
  app_main_loop host_ready 1000 2000 { reverse_pressed with last_heartbeat_time := 900 }

/-- The state `reverse_held_connected` after the shifter has been silent until
tick 5000 and the supervisory iteration has handled the connection loss, the
gear-display emitter has fired once, and then a lever frame (centre, park
normal) has been received again at tick 6000. -/
def reverse_reconnected : main_state_t :=
  can_rx_lever_frame 6000 LEVER_POS_CENTER_MIDDLE PARK_BUTTON_NORMAL
    (timer_gear_display_callback (app_main_loop host_ready 5000 2000 reverse_held_connected))

/-- A reading of `atoi` used in instances: optional blanks, optional sign,
then decimal digits, without overflow. -/
def atoi_digits : List Char → Nat → Nat
  | [], acc => acc
  | c :: rest, acc =>
    if c.isDigit then atoi_digits rest (10 * acc + (c.toNat - 48)) else acc

/-- The decimal reading built on `atoi_digits`. -/
def atoi_decimal (str : List Char) : Int :=
  match str.dropWhile Char.isWhitespace with
  | '-' :: rest => - (atoi_digits rest 0 : Int)
  | '+' :: rest => (atoi_digits rest 0 : Int)
  | rest => (atoi_digits rest 0 : Int)

/-- The outputs as `serial_rx_task` sets them before the call, in the initial
program state. -/
def serial_out_init : serial_out_t :=
  { backlight_level := BACKLIGHT_DEFAULT
    gear_indication := GEAR_P
    hid_button := -1
    hid_action := -1 }

/-- The command text `{"type":"set_backlight","level":128}`. -/
def command_set_backlight_128 : List Char :=
  "\x7b\"type\":\"set_backlight\",\"level\":128\x7d".toList

/-- The command text `{"type":"set_backlight","level":300}`. -/
def command_set_backlight_300 : List Char :=
  "\x7b\"type\":\"set_backlight\",\"level\":300\x7d".toList

/-- The command text `{"type":"set_gear_indication","gear":"D"}`. -/
def command_set_gear_D : List Char :=
  "\x7b\"type\":\"set_gear_indication\",\"gear\":\"D\"\x7d".toList

/-- The command text `{"type":"hid_button","button":"P","action":"toggle"}`. -/
def command_button_bad_action : List Char :=
  "\x7b\"type\":\"hid_button\",\"button\":\"P\",\"action\":\"toggle\"\x7d".toList

/-- Events with the sink ready: a lever frame centre to up-1 (gear N), the
gear-display timer, a controller iteration at tick 500 (N is pressed), then
lever frames centre, down-1 (gear D), centre, side (gear M), side-up within
40 ticks, then a controller iteration at tick 540, with no firing of the
gear-display timer in between. -/
def events_neutral_then_plus : List event_t :=
  [event_t.lever_frame 400 LEVER_POS_UP_1 PARK_BUTTON_NORMAL,
   event_t.gear_display_timer,
   event_t.hid_tick host_ready 500,
   event_t.lever_frame 505 LEVER_POS_CENTER_MIDDLE PARK_BUTTON_NORMAL,
   event_t.lever_frame 510 LEVER_POS_DOWN_1 PARK_BUTTON_NORMAL,
   event_t.lever_frame 515 LEVER_POS_CENTER_MIDDLE PARK_BUTTON_NORMAL,
   event_t.lever_frame 520 LEVER_POS_CENTER_SIDE PARK_BUTTON_NORMAL,
   event_t.lever_frame 525 LEVER_POS_SIDE_UP PARK_BUTTON_NORMAL,
   event_t.hid_tick host_ready 540]

/-- The events `events_neutral_then_plus` followed by the gear-display timer
and controller iterations at ticks 550, 700 and 5000. -/
def events_neutral_left_pressed : List event_t :=
  events_neutral_then_plus ++
  [event_t.gear_display_timer,
   event_t.hid_tick host_ready 550,
   event_t.hid_tick host_ready 700,
   event_t.gear_display_timer,
   event_t.hid_tick host_ready 5000]

/-- The command text `{"type":"set_gear_indication","gear":"g"}` for a gear
character `g`. -/
def command_set_gear (g : Char) : List Char :=
  "\x7b\"type\":\"set_gear_indication\",\"gear\":\"".toList ++ [g] ++ "\"\x7d".toList

/-- The command text `{"type":"set_gear_indication","gear":"`, which ends
right after the key. -/
def command_gear_key_only : List Char :=
  "\x7b\"type\":\"set_gear_indication\",\"gear\":\"".toList

/-- The command text `{"type":"hid_button","action":"press","button":"`, which
ends right after the button key. -/
def command_button_key_only : List Char :=
  "\x7b\"type\":\"hid_button\",\"action\":\"press\",\"button\":\"".toList

/-- The events `events_neutral_then_plus` (N pressed at tick 500, Plus pressed
at tick 540 with N still set) followed by lever frames side, centre (M to D),
up-1 (D to N), up-2 (N to R) and the gear-display timer (indication 0x40). -/
def events_neutral_plus_then_reverse : List event_t :=
  events_neutral_then_plus ++
  [event_t.lever_frame 545 LEVER_POS_CENTER_SIDE PARK_BUTTON_NORMAL,
   event_t.lever_frame 550 LEVER_POS_CENTER_MIDDLE PARK_BUTTON_NORMAL,
   event_t.lever_frame 555 LEVER_POS_UP_1 PARK_BUTTON_NORMAL,
   event_t.lever_frame 560 LEVER_POS_UP_2 PARK_BUTTON_NORMAL,
   event_t.gear_display_timer]

/-- The program state after `events_neutral_plus_then_reverse`. -/
def neutral_set_plus_tracked : main_state_t :=
  state_after atoi_decimal 80 2000 events_neutral_plus_then_reverse

theorem get_crc_start_value_of_unknown (can_id : Nat) (h : can_id ∉ known_can_ids) :
    get_crc_start_value can_id = 0 := by
  have hnone : crc_start_cases.lookup can_id = none := by
    rw [List.lookup_eq_none_iff]
    intro p hp
    simp only [bne_iff_ne, ne_eq]
    intro heq
    exact h (List.mem_map.2 ⟨p, hp, heq.symm⟩)
  simp [get_crc_start_value, hnone]

theorem get_crc_start_value_of_known :
    ∀ can_id ∈ known_can_ids, get_crc_start_value can_id ≠ 0 ∧ can_id ≠ 0x202 := by
  decide

/-- For a seeded identifier both steps run: counter stamp, then checksum. -/
theorem bmw_update_pkt_of_known (c : Nat → Nat) (can_id : Nat) (data : List Nat)
    (data_len : Nat) (h : can_id ∈ known_can_ids) :
    bmw_update_pkt c can_id data data_len
      = (Function.update c can_id ((c can_id + 1) % 15),
         (data.set 1 ((data.getD 1 0 &&& 0xF0) ||| c can_id)).set 0
           (crc_loop (get_crc_start_value can_id)
             (data.set 1 ((data.getD 1 0 &&& 0xF0) ||| c can_id)) data_len)) := by
  obtain ⟨hseed, hid⟩ := get_crc_start_value_of_known can_id h
  simp [bmw_update_pkt, hseed, hid]

/-- For the backlight identifier only the counter is stamped. -/
theorem bmw_update_pkt_backlight (c : Nat → Nat) (data : List Nat) (data_len : Nat) :
    bmw_update_pkt c 0x202 data data_len
      = (Function.update c 0x202 ((c 0x202 + 1) % 15),
         data.set 1 ((data.getD 1 0 &&& 0xF0) ||| c 0x202)) := by
  simp [bmw_update_pkt]

/-- The counter of `can_id` after one call for `other`. -/
theorem bmw_update_pkt_counter (c : Nat → Nat) (can_id other : Nat) (data : List Nat)
    (data_len : Nat) (h : can_id ∈ known_can_ids ∨ can_id = 0x202) :
    (bmw_update_pkt c other data data_len).1 can_id
      = if other = can_id then (c can_id + 1) % 15 else c can_id := by
  by_cases ho : other = can_id
  · subst ho
    rcases h with h | h
    · simp [bmw_update_pkt_of_known c other data data_len h]
    · subst h
      simp [bmw_update_pkt_backlight]
  · simp only [ho, if_false]
    unfold bmw_update_pkt
    simp only []
    split_ifs <;> simp [Function.update, Ne.symm ho]

theorem range_map_getD_eq_drop (d : List Nat) (k : Nat) :
    (List.range' k (d.length - k)).map (fun i => d.getD i 0) = d.drop k := by
  apply List.ext_getElem
  · simp
  · intro i h1 h2
    simp only [List.length_map, List.length_range'] at h1
    simp only [List.getElem_map, List.getElem_range', List.getElem_drop]
    rw [List.getD_eq_getElem]
    · simp
    · omega

/-- The checksum loop over the whole payload is the fold over bytes 1..end. -/
theorem crc_loop_eq_crc_fold (seed : Nat) (d : List Nat) :
    crc_loop seed d d.length = crc_fold seed (d.drop 1) := by
  rw [← range_map_getD_eq_drop d 1, crc_fold, List.foldl_map]
  rfl

theorem low_nibble_of_stamp (b c : Nat) (hc : c < 16) : (b &&& 0xF0 ||| c) % 16 = c := by
  apply Nat.eq_of_testBit_eq
  intro i
  have h16 : (16 : Nat) = 2 ^ 4 := by norm_num
  rw [h16, Nat.testBit_mod_two_pow, Nat.testBit_or, Nat.testBit_and]
  by_cases hi : i < 4
  · have hmask : Nat.testBit 0xF0 i = false := by
      interval_cases i <;> rfl
    simp [hi, hmask]
  · have hci : c.testBit i = false := by
      apply Nat.testBit_lt_two_pow
      calc c < 2 ^ 4 := by omega
        _ ≤ 2 ^ i := Nat.pow_le_pow_right (by norm_num) (by omega)
    simp [hi, hci]

set_option maxRecDepth 100000 in
theorem high_nibble_of_stamp : ∀ b < 256, ∀ c < 16, (b &&& 0xF0 ||| c) / 16 = b / 16 := by
  decide

/-- Number of calls in a sequence that are for the frame `can_id`. -/
theorem counters_after_eq (calls : List (Nat × List Nat)) (c : Nat → Nat) (can_id : Nat)
    (h : can_id ∈ known_can_ids ∨ can_id = 0x202) :
    counters_after calls c can_id
      = if calls.countP (fun call => call.1 = can_id) = 0 then c can_id
        else (c can_id + calls.countP (fun call => call.1 = can_id)) % 15 := by
  induction calls generalizing c with
  | nil => simp [counters_after]
  | cons call rest ih =>
    have hstep : counters_after (call :: rest) c
        = counters_after rest (bmw_update_pkt c call.1 call.2 call.2.length).1 := rfl
    rw [hstep, ih, bmw_update_pkt_counter c can_id call.1 call.2 _ h]
    by_cases hc : call.1 = can_id
    · have hcount : (call :: rest).countP (fun call => call.1 = can_id)
          = rest.countP (fun call => call.1 = can_id) + 1 :=
        List.countP_cons_of_pos _ _ (by simpa using hc)
      rw [hcount, if_pos hc]
      split_ifs <;> first | contradiction | omega
    · have hcount : (call :: rest).countP (fun call => call.1 = can_id)
          = rest.countP (fun call => call.1 = can_id) :=
        List.countP_cons_of_neg _ _ (by simpa using hc)
      rw [hcount, if_neg hc]

/-! ## Helper lemmas for the controller -/

/-- Stamping the gear-display frame leaves byte 2 of the message alone. -/
theorem bmw_update_pkt_display_byte2 (c : Nat → Nat) (msg : List Nat) (data_len : Nat) :
    (bmw_update_pkt c CAN_ID_DISPLAY_GEAR msg data_len).2.getD 2 0 = msg.getD 2 0 := by
  rw [bmw_update_pkt_of_known c CAN_ID_DISPLAY_GEAR msg data_len (by decide)]
  simp [List.getD_eq_getElem?_getD, List.getElem?_set]

theorem display_gear_ind_ne_0x80 (s : bmw_shifter_state_t) : display_gear_ind s ≠ 0x80 := by
  unfold display_gear_ind bmw_get_gear_indication
  split
  · decide
  · cases s.current_gear <;> decide

theorem display_gear_ind_eq_R (s : bmw_shifter_state_t) (h : display_gear_ind s = 0x40) :
    s.current_gear = GEAR_R := by
  unfold display_gear_ind bmw_get_gear_indication at h
  split at h
  · exact absurd h (by decide)
  · cases hg : s.current_gear <;> simp [hg] at h ⊢

theorem update_plus_minus_of_R_not_M (host : usb_host_t) (now : Nat) (st : main_state_t)
    (hg : st.shifter_state.current_gear ≠ GEAR_M) (hb : st.pressed_button = HID_BUTTON_R) :
    update_hid_plus_minus_buttons host now st = st
    ∨ update_hid_plus_minus_buttons host now st
        = { st with
            last_lever_pos := st.shifter_state.lever_position
            last_was_m_mode := false } := by
  unfold update_hid_plus_minus_buttons
  simp only [hg, hb, decide_False]
  split_ifs <;> simp_all

/-- The press calls made by one changed evaluation of the plus/minus
controller. -/
theorem plus_minus_press_calls (host : usb_host_t) (now : Nat) (st : main_state_t)
    (hready : usb_hid_is_ready host = true)
    (hchg : st.shifter_state.lever_position ≠ st.last_lever_pos
      ∨ decide (st.shifter_state.current_gear = GEAR_M) ≠ st.last_was_m_mode) :
    (calls_since st (update_hid_plus_minus_buttons host now st)).filter
        (fun call => call.2 = HID_ACTION_PRESS)
      = if st.shifter_state.current_gear = GEAR_M
            ∧ st.shifter_state.lever_position = LEVER_POS_SIDE_UP then
          [(HID_BUTTON_PLUS, HID_ACTION_PRESS)]
        else if st.shifter_state.current_gear = GEAR_M
            ∧ st.shifter_state.lever_position = LEVER_POS_SIDE_DOWN then
          [(HID_BUTTON_MINUS, HID_ACTION_PRESS)]
        else [] := by
  unfold update_hid_plus_minus_buttons
  simp only [hready, not_true_eq_false, if_false, hchg, if_true]
  by_cases hm : st.shifter_state.current_gear = GEAR_M
  · by_cases hu : st.shifter_state.lever_position = LEVER_POS_SIDE_UP
    · split_ifs <;> simp_all [calls_since, send_button]
    · by_cases hd : st.shifter_state.lever_position = LEVER_POS_SIDE_DOWN
      · split_ifs <;> simp_all [calls_since, send_button]
      · split_ifs <;> simp_all [calls_since, send_button]
  · split_ifs <;> simp_all [calls_since, send_button]

theorem press_mem_iff_mem_filter (calls : List (hid_button_t × hid_action_t))
    (b : hid_button_t) :
    (b, HID_ACTION_PRESS) ∈ calls
      ↔ (b, HID_ACTION_PRESS) ∈ calls.filter (fun call => call.2 = HID_ACTION_PRESS) := by
  simp [List.mem_filter]

theorem calls_since_self (st : main_state_t) : calls_since st st = [] := by
  simp [calls_since]

theorem press_for_indication_calls (host : usb_host_t) (now : Nat) (st : main_state_t) :
    (press_for_indication host now st).hid_calls
      = st.hid_calls ++
        (if st.current_gear_indication = 0x40 then [(HID_BUTTON_R, HID_ACTION_PRESS)]
         else if st.current_gear_indication = 0x60 then [(HID_BUTTON_N, HID_ACTION_PRESS)]
         else if st.current_gear_indication = 0x80 then [(HID_BUTTON_D, HID_ACTION_PRESS)]
         else []) := by
  unfold press_for_indication
  split_ifs <;> simp_all [send_button]

/-- The calls made by the gear-button controller on an indication change. -/
theorem gear_controller_calls (host : usb_host_t) (now : Nat) (st : main_state_t)
    (hready : usb_hid_is_ready host = true)
    (hchg : st.current_gear_indication ≠ st.prev_gear_indication) :
    calls_since st (update_hid_buttons_from_gear_indication host now st)
      = (if st.button_is_pressed
            ∧ ¬ (st.current_gear_indication = 0x40 ∧ st.pressed_button = HID_BUTTON_R) then
          [(st.pressed_button, HID_ACTION_RELEASE)]
        else [])
        ++ (if st.current_gear_indication = 0x40 then [(HID_BUTTON_R, HID_ACTION_PRESS)]
         else if st.current_gear_indication = 0x60 then [(HID_BUTTON_N, HID_ACTION_PRESS)]
         else if st.current_gear_indication = 0x80 then [(HID_BUTTON_D, HID_ACTION_PRESS)]
         else []) := by
  unfold update_hid_buttons_from_gear_indication calls_since
  simp only [hready, not_true_eq_false, if_false, hchg]
  simp only [press_for_indication_calls]
  split_ifs <;> simp_all [release_pressed_button, send_button]

theorem gear_controller_of_not_ready (host : usb_host_t) (now : Nat) (st : main_state_t)
    (hnot : usb_hid_is_ready host = false) :
    update_hid_buttons_from_gear_indication host now st = st := by
  simp [update_hid_buttons_from_gear_indication, hnot]

theorem testBit_press (b n i : Nat) :
    (b ||| 1 <<< n).testBit i = (b.testBit i || decide (n = i)) := by
  rw [Nat.testBit_or, Nat.one_shiftLeft, Nat.testBit_two_pow]

theorem testBit_release (b n i : Nat) (hi : i < 32) :
    (b &&& (0xFFFFFFFF ^^^ 1 <<< n)).testBit i = (b.testBit i && !decide (n = i)) := by
  have hmask : (0xFFFFFFFF : Nat) = 2 ^ 32 - 1 := by norm_num
  rw [Nat.testBit_and, Nat.testBit_xor, Nat.one_shiftLeft, Nat.testBit_two_pow, hmask,
    Nat.testBit_two_pow_sub_one]
  simp [hi]

theorem button_number_range (button : hid_button_t) :
    1 ≤ button_to_gamepad_number button ∧ button_to_gamepad_number button ≤ 32 := by
  cases button <;> decide

/-- With the sink ready the report after `usb_hid_send_button` has the bit of
the button set (press) or cleared (release), and nothing else changed. -/
theorem usb_hid_send_button_of_ready (host : usb_host_t) (hready : usb_hid_is_ready host = true)
    (report : custom_gamepad_report_t) (button : hid_button_t) (action : hid_action_t) :
    (usb_hid_send_button host report button action).2
      = if action = HID_ACTION_PRESS then
          { report with
            buttons := report.buttons ||| 1 <<< (button_to_gamepad_number button - 1) }
        else
          { report with
            buttons := report.buttons
              &&& (0xFFFFFFFF ^^^ 1 <<< (button_to_gamepad_number button - 1)) } := by
  have hr := button_number_range button
  have hguard : ¬ (button_to_gamepad_number button = 0
      ∨ button_to_gamepad_number button > 32) := by
    omega
  unfold usb_hid_send_button
  simp only [hready, not_true_eq_false, if_false, hguard]

/-- The seven releases clear bits 0-4, 29 and 30 of the mask. -/
theorem release_all_buttons_mask (host : usb_host_t) (hready : usb_hid_is_ready host = true)
    (st : main_state_t) :
    (release_all_buttons host st).gamepad_report
      = { st.gamepad_report with buttons := st.gamepad_report.buttons &&& 0x9FFFFFE0 } := by
  simp [release_all_buttons, send_button, usb_hid_send_button_of_ready host hready,
    button_to_gamepad_number, Nat.and_assoc]
  rfl

theorem release_all_buttons_calls (host : usb_host_t) (st : main_state_t) :
    (release_all_buttons host st).hid_calls
      = st.hid_calls ++ [(HID_BUTTON_P, HID_ACTION_RELEASE), (HID_BUTTON_R, HID_ACTION_RELEASE),
          (HID_BUTTON_N, HID_ACTION_RELEASE), (HID_BUTTON_D, HID_ACTION_RELEASE),
          (HID_BUTTON_M, HID_ACTION_RELEASE), (HID_BUTTON_PLUS, HID_ACTION_RELEASE),
          (HID_BUTTON_MINUS, HID_ACTION_RELEASE)] := by
  simp [release_all_buttons, send_button]

/-- The supervisory iteration on a connection loss with the sink ready. -/
theorem app_main_loop_of_loss (host : usb_host_t) (now timeout_ticks : Nat) (st : main_state_t)
    (hready : usb_hid_is_ready host = true) (hwas : st.was_connected = true)
    (hloss : st.shifter_connected = false
      ∨ timeout_ticks < (now + 2 ^ 32 - st.last_heartbeat_time) % 2 ^ 32) :
    app_main_loop host now timeout_ticks st
      = { release_all_buttons host { st with shifter_connected := false } with
          shifter_state_initialized := false
          current_gear_indication := 0
          button_is_pressed := false
          button_press_time := 0
          button_should_hold := false
          was_connected := false } := by
  unfold app_main_loop
  by_cases hconn : st.shifter_connected = true
  · rcases hloss with hloss | hloss
    · rw [hconn] at hloss
      exact absurd hloss (by decide)
    · rw [if_pos ⟨hconn, hloss⟩]
      simp [hready, hwas, release_all_buttons, send_button]
  · have hfalse : st.shifter_connected = false := by simpa using hconn
    simp [hready, hwas, hfalse, release_all_buttons, send_button]

/-- The possible results of the parser. -/
theorem parser_result_cases (atoi : List Char → Int) (json_str : List Char)
    (out : serial_out_t) :
    serial_process_received_data atoi json_str out = none
    ∨ serial_process_received_data atoi json_str out = some (false, out)
    ∨ (∃ level : Int, 0 ≤ level ∧ level ≤ 254
        ∧ serial_process_received_data atoi json_str out
          = some (true, { out with backlight_level := level.toNat }))
    ∨ (∃ gear : bmw_gear_t, serial_process_received_data atoi json_str out
          = some (true, { out with gear_indication := gear }))
    ∨ (∃ button action : Int, 0 ≤ button ∧ button ≤ 7 ∧ (action = 0 ∨ action = 1)
        ∧ serial_process_received_data atoi json_str out
          = some (true, { out with hid_button := button, hid_action := action })) := by
  generalize hr : serial_process_received_data atoi json_str out = r
  unfold serial_process_received_data at hr
  split_ifs at hr with h1 h2 h3
  · split at hr
    · simp only [] at hr
      split_ifs at hr with hl
      · subst hr
        exact Or.inr (Or.inr (Or.inl ⟨_, hl.1, hl.2, rfl⟩))
      · subst hr
        exact Or.inr (Or.inl rfl)
    · subst hr
      exact Or.inr (Or.inl rfl)
  · split at hr
    · split at hr
      · split at hr
        · subst hr
          exact Or.inr (Or.inr (Or.inr (Or.inl ⟨_, rfl⟩)))
        · subst hr
          exact Or.inr (Or.inl rfl)
      · subst hr
        exact Or.inl rfl
    · subst hr
      exact Or.inr (Or.inl rfl)
  · split at hr
    · split at hr
      · split at hr
        · rename_i button hb
          have hrange : 0 ≤ button ∧ button ≤ 7 := by
            unfold button_of_char at hb
            split_ifs at hb <;> simp at hb <;> omega
          split_ifs at hr
          · subst hr
            exact Or.inr (Or.inr (Or.inr (Or.inr ⟨_, _, hrange.1, hrange.2, Or.inl rfl, rfl⟩)))
          · subst hr
            exact Or.inr (Or.inr (Or.inr (Or.inr ⟨_, _, hrange.1, hrange.2, Or.inr rfl, rfl⟩)))
          · subst hr
            exact Or.inr (Or.inl rfl)
        · subst hr
          exact Or.inr (Or.inl rfl)
      · subst hr
        exact Or.inl rfl
    · subst hr
      exact Or.inr (Or.inl rfl)
  · subst hr
    exact Or.inr (Or.inl rfl)

theorem backlight_vars_press_for_indication (host : usb_host_t) (now : Nat) (st : main_state_t) :
    backlight_vars (press_for_indication host now st) = backlight_vars st := by
  unfold press_for_indication
  split_ifs <;> rfl

theorem backlight_vars_update_gear (host : usb_host_t) (now : Nat) (st : main_state_t) :
    backlight_vars (update_hid_buttons_from_gear_indication host now st) = backlight_vars st := by
  unfold update_hid_buttons_from_gear_indication
  split_ifs
  all_goals first
    | rfl
    | (show backlight_vars (press_for_indication host now _) = _
       rw [backlight_vars_press_for_indication]
       try rfl)

theorem backlight_vars_update_plus_minus (host : usb_host_t) (now : Nat) (st : main_state_t) :
    backlight_vars (update_hid_plus_minus_buttons host now st) = backlight_vars st := by
  unfold update_hid_plus_minus_buttons
  dsimp only
  split_ifs <;> rfl

theorem backlight_vars_release_check (host : usb_host_t) (now press_ticks : Nat)
    (st : main_state_t) :
    backlight_vars (hid_release_check host now press_ticks st) = backlight_vars st := by
  unfold hid_release_check
  split_ifs <;> rfl

theorem backlight_vars_hid_update_task (host : usb_host_t) (now press_ticks : Nat)
    (st : main_state_t) :
    backlight_vars (hid_update_task host now press_ticks st) = backlight_vars st := by
  unfold hid_update_task
  split_ifs
  · simp only []
    rw [backlight_vars_update_plus_minus, backlight_vars_update_gear,
      backlight_vars_release_check]
  · rfl

theorem backlight_vars_app_main_loop (host : usb_host_t) (now timeout_ticks : Nat)
    (st : main_state_t) :
    backlight_vars (app_main_loop host now timeout_ticks st) = backlight_vars st := by
  unfold app_main_loop
  dsimp only
  split_ifs <;> simp [backlight_vars, release_all_buttons, send_button]

theorem serial_rx_command_backlight (host : usb_host_t) (atoi : List Char → Int)
    (json_str : List Char) (st : main_state_t) (h : st.backlight_level ≤ 254) :
    (serial_rx_command host atoi json_str st).backlight_level ≤ 254
    ∧ (serial_rx_command host atoi json_str st).backlight_msg = st.backlight_msg := by
  unfold serial_rx_command
  rcases parser_result_cases atoi json_str
      { backlight_level := st.backlight_level
        gear_indication := st.shifter_state.current_gear
        hid_button := -1
        hid_action := -1 } with hr | hr | ⟨level, h0, h254, hr⟩ | ⟨gear, hr⟩
      | ⟨button, action, hb0, hb7, ha, hr⟩
  · rw [hr]
    exact ⟨h, rfl⟩
  · rw [hr]
    exact ⟨h, rfl⟩
  · rw [hr]
    simp only []
    have hlev : level.toNat ≤ 254 := by omega
    split_ifs <;> first | exact ⟨hlev, rfl⟩ | exact ⟨h, rfl⟩
  · rw [hr]
    simp
    exact h
  · rw [hr]
    simp only [ne_eq, not_true_eq_false, if_false]
    split_ifs
    · split <;> exact ⟨h, rfl⟩
    · exact ⟨h, rfl⟩

theorem backlight_in_range_of_vars (a b : main_state_t) (h : backlight_vars a = backlight_vars b)
    (hb : backlight_in_range b) : backlight_in_range a := by
  unfold backlight_vars at h
  unfold backlight_in_range at *
  have h1 : a.backlight_level = b.backlight_level := congrArg Prod.fst h
  have h2 : a.backlight_msg = b.backlight_msg := congrArg Prod.snd h
  rw [h1, h2]
  exact hb

theorem backlight_in_range_apply_event (atoi : List Char → Int) (press_ticks timeout_ticks : Nat)
    (st : main_state_t) (event : event_t) (h : backlight_in_range st) :
    backlight_in_range (apply_event atoi press_ticks timeout_ticks st event) := by
  cases event with
  | lever_frame now lever_pos park_button => exact h
  | heartbeat_frame now => exact h
  | gear_display_timer => exact h
  | backlight_timer =>
    obtain ⟨h1, h2, h3⟩ := h
    refine ⟨h1, ?_, ?_⟩
    · simp [apply_event, timer_backlight_callback, h2]
    · have hpos : 0 < st.backlight_msg.length := by omega
      simp [apply_event, timer_backlight_callback, List.getD_eq_getElem?_getD,
        List.getElem?_set, hpos]
      exact h1
  | hid_tick host now =>
    exact backlight_in_range_of_vars _ _ (backlight_vars_hid_update_task host now press_ticks st) h
  | supervisor host now =>
    exact backlight_in_range_of_vars _ _ (backlight_vars_app_main_loop host now timeout_ticks st) h
  | serial_command host json_str =>
    obtain ⟨h1, h2, h3⟩ := h
    obtain ⟨hl, hm⟩ := serial_rx_command_backlight host atoi json_str st h1
    refine ⟨hl, ?_, ?_⟩
    · show (serial_rx_command host atoi json_str st).backlight_msg.length = 2
      rw [hm, h2]
    · show (serial_rx_command host atoi json_str st).backlight_msg.getD 0 0 ≤ 254
      rw [hm]
      exact h3

theorem backlight_in_range_foldl (atoi : List Char → Int) (press_ticks timeout_ticks : Nat)
    (events : List event_t) (st : main_state_t) (h : backlight_in_range st) :
    backlight_in_range (events.foldl (apply_event atoi press_ticks timeout_ticks) st) := by
  induction events generalizing st with
  | nil => exact h
  | cons event rest ih =>
    exact ih _ (backlight_in_range_apply_event atoi press_ticks timeout_ticks st event h)

theorem parser_set_backlight (atoi : List Char → Int) (json_str level_str : List Char)
    (out : serial_out_t)
    (htype : (strstr json_str "\"type\":\"set_backlight\"".toList).isSome = true)
    (hlevel : strstr json_str "\"level\":".toList = some level_str) :
    serial_process_received_data atoi json_str out
      = if 0 ≤ atoi (level_str.drop 8) ∧ atoi (level_str.drop 8) ≤ 254 then
          some (true, { out with backlight_level := (atoi (level_str.drop 8)).toNat })
        else some (false, out) := by
  unfold serial_process_received_data
  rw [if_pos htype, hlevel]

/-! ## Helper lemmas for the substitution table and the checked codec -/

set_option maxRecDepth 100000 in
theorem crc_table_length : crc_table.length = 256 := by decide

set_option maxRecDepth 100000 in
theorem crc_table_lt : ∀ i < 256, crc_table.getD i 0 < 256 := by decide

set_option maxRecDepth 100000 in
theorem crc_table_nodup : crc_table.Nodup := by decide

set_option maxRecDepth 100000 in
theorem crc_table_eq_crc8_of_index : ∀ i < 256, crc_table.getD i 0 = crc8_of_index i := by
  decide

set_option maxRecDepth 100000 in
theorem crc_table_surjective : ∀ v < 256, v ∈ crc_table := by decide

theorem xor_lt_256 (a b : Nat) (ha : a < 256) (hb : b < 256) : a ^^^ b < 256 :=
  Nat.xor_lt_two_pow (n := 8) ha hb

theorem crc_table_injective (i j : Nat) (hi : i < 256) (hj : j < 256)
    (h : crc_table.getD i 0 = crc_table.getD j 0) : i = j := by
  have hi2 : i < crc_table.length := by rw [crc_table_length]; exact hi
  have hj2 : j < crc_table.length := by rw [crc_table_length]; exact hj
  rw [List.getD_eq_getElem _ _ hi2, List.getD_eq_getElem _ _ hj2] at h
  exact (List.Nodup.getElem_inj_iff crc_table_nodup).1 h

theorem crc_fold_lt (seed : Nat) (bytes : List Nat) (hseed : seed < 256)
    (hbytes : ∀ b ∈ bytes, b < 256) : crc_fold seed bytes < 256 := by
  induction bytes generalizing seed with
  | nil => exact hseed
  | cons b rest ih =>
    have hb : b < 256 := hbytes b (List.mem_cons_self b rest)
    exact ih _ (crc_table_lt _ (xor_lt_256 seed b hseed hb))
      (fun x hx => hbytes x (List.mem_cons_of_mem b hx))

theorem crc_fold_cons (seed b : Nat) (rest : List Nat) :
    crc_fold seed (b :: rest) = crc_fold (crc_table.getD (seed ^^^ b) 0) rest := rfl

/-- The fold is injective in the seed. -/
theorem crc_fold_seed_injective (bytes : List Nat) (s1 s2 : Nat) (h1 : s1 < 256) (h2 : s2 < 256)
    (hbytes : ∀ b ∈ bytes, b < 256) (hne : s1 ≠ s2) :
    crc_fold s1 bytes ≠ crc_fold s2 bytes := by
  induction bytes generalizing s1 s2 with
  | nil => exact hne
  | cons b rest ih =>
    have hb : b < 256 := hbytes b (List.mem_cons_self b rest)
    rw [crc_fold_cons, crc_fold_cons]
    apply ih _ _ (crc_table_lt _ (xor_lt_256 s1 b h1 hb)) (crc_table_lt _ (xor_lt_256 s2 b h2 hb))
      (fun x hx => hbytes x (List.mem_cons_of_mem b hx))
    intro heq
    have hx := crc_table_injective _ _ (xor_lt_256 s1 b h1 hb) (xor_lt_256 s2 b h2 hb) heq
    exact hne (Nat.xor_right_injective.eq_iff.mp (by rw [Nat.xor_comm b s1, Nat.xor_comm b s2]; exact hx))

theorem crc_fold_single_difference (xs ys : List Nat) (seed k : Nat) (hseed : seed < 256)
    (hxs : ∀ b ∈ xs, b < 256) (hys : ∀ b ∈ ys, b < 256) (hlen : xs.length = ys.length)
    (hk : k < xs.length) (hdiff : xs.getD k 0 ≠ ys.getD k 0)
    (hsame : ∀ i, i ≠ k → xs.getD i 0 = ys.getD i 0) :
    crc_fold seed xs ≠ crc_fold seed ys := by
  induction xs generalizing ys seed k with
  | nil => simp at hk
  | cons x xs ih =>
    cases ys with
    | nil => simp at hlen
    | cons y ys =>
      have hx : x < 256 := hxs x (List.mem_cons_self x xs)
      have hy : y < 256 := hys y (List.mem_cons_self y ys)
      have hxs2 : ∀ b ∈ xs, b < 256 := fun b hb => hxs b (List.mem_cons_of_mem x hb)
      have hys2 : ∀ b ∈ ys, b < 256 := fun b hb => hys b (List.mem_cons_of_mem y hb)
      rw [crc_fold_cons, crc_fold_cons]
      cases k with
      | zero =>
        have hxy : x ≠ y := by simpa using hdiff
        have hrest : xs = ys := by
          apply List.ext_getElem
          · simpa using hlen
          · intro i h1 h2
            have := hsame (i + 1) (by omega)
            simpa [List.getD_eq_getElem?_getD, h1, h2] using this
        rw [hrest]
        apply crc_fold_seed_injective ys _ _ (crc_table_lt _ (xor_lt_256 seed x hseed hx))
          (crc_table_lt _ (xor_lt_256 seed y hseed hy)) hys2
        intro heq
        have hx2 := crc_table_injective _ _ (xor_lt_256 seed x hseed hx)
          (xor_lt_256 seed y hseed hy) heq
        exact hxy (Nat.xor_right_injective.eq_iff.mp hx2)
      | succ k =>
        have hxy : x = y := by simpa using hsame 0 (by omega)
        rw [hxy]
        apply ih ys _ k (crc_table_lt _ (xor_lt_256 seed y hseed hy)) hxs2 hys2
        · simpa using hlen
        · simpa using hk
        · simpa using hdiff
        · intro i hi
          have := hsame (i + 1) (by omega)
          simpa using this

theorem crc_fold_eq_crc8_bitwise (seed : Nat) (bytes : List Nat) (hseed : seed < 256)
    (hbytes : ∀ b ∈ bytes, b < 256) : crc_fold seed bytes = crc8_bitwise seed bytes := by
  induction bytes generalizing seed with
  | nil => rfl
  | cons b rest ih =>
    have hb : b < 256 := hbytes b (List.mem_cons_self b rest)
    have hidx := xor_lt_256 seed b hseed hb
    have hstep : crc8_bitwise seed (b :: rest) = crc8_bitwise (crc8_of_index (seed ^^^ b)) rest :=
      rfl
    rw [crc_fold_cons, hstep, ← crc_table_eq_crc8_of_index _ hidx]
    exact ih _ (crc_table_lt _ hidx) (fun x hx => hbytes x (List.mem_cons_of_mem b hx))

theorem foldlM_checked_eq (d : List Nat) (hd : ∀ b ∈ d, b < 256) (l : List Nat)
    (hl : ∀ i ∈ l, i < d.length) (crc : Nat) (hcrc : crc < 256) :
    l.foldlM (fun crc i =>
        match d[i]? with
        | some b => crc_table[crc ^^^ b]?
        | none => none) crc
      = some (l.foldl (fun crc i => crc_table.getD (crc ^^^ d.getD i 0) 0) crc) := by
  induction l generalizing crc with
  | nil => rfl
  | cons i rest ih =>
    have hi : i < d.length := hl i (List.mem_cons_self i rest)
    have hb : d[i] < 256 := hd _ (List.getElem_mem hi)
    have hidx : crc ^^^ d[i] < 256 := xor_lt_256 _ _ hcrc hb
    have hidx2 : crc ^^^ d[i] < crc_table.length := by rw [crc_table_length]; exact hidx
    have hget : d.getD i 0 = d[i] := List.getD_eq_getElem _ _ hi
    have htab : crc_table.getD (crc ^^^ d[i]) 0 = crc_table[crc ^^^ d[i]] :=
      List.getD_eq_getElem _ _ hidx2
    rw [List.foldlM_cons, List.foldl_cons, List.getElem?_eq_getElem hi]
    simp only [List.getElem?_eq_getElem hidx2, Option.bind_eq_bind, Option.some_bind]
    rw [hget, htab]
    apply ih (fun j hj => hl j (List.mem_cons_of_mem i hj))
    rw [← htab]
    exact crc_table_lt _ hidx

theorem crc_loop_checked_eq (seed : Nat) (d : List Nat) (hseed : seed < 256)
    (hd : ∀ b ∈ d, b < 256) :
    crc_loop_checked seed d d.length = some (crc_loop seed d d.length) := by
  unfold crc_loop_checked crc_loop
  apply foldlM_checked_eq d hd _ _ seed hseed
  intro i hi
  rw [List.mem_range'_1] at hi
  omega

set_option maxRecDepth 100000 in
theorem get_crc_start_value_lt : ∀ can_id ∈ known_can_ids, get_crc_start_value can_id < 256 := by
  decide

theorem known_can_ids_lt : ∀ can_id ∈ known_can_ids, can_id < 0x400 := by
  decide

theorem guard_passed_iff (can_id : Nat) :
    ¬ (get_crc_start_value can_id = 0x00 ∧ can_id ≠ 0x202)
      ↔ can_id ∈ known_can_ids ∨ can_id = 0x202 := by
  constructor
  · intro h
    by_cases hk : can_id ∈ known_can_ids
    · exact Or.inl hk
    · right
      by_contra hne
      exact h ⟨get_crc_start_value_of_unknown can_id hk, hne⟩
  · rintro (hk | hb) ⟨h0, hne⟩
    · exact (get_crc_start_value_of_known can_id hk).1 h0
    · exact hne hb

theorem stamped_byte_lt (b c : Nat) (hb : b < 256) (hc : c < 256) : (b &&& 0xF0) ||| c < 256 :=
  Nat.or_lt_two_pow (n := 8) (lt_of_le_of_lt Nat.and_le_left hb) hc

theorem mem_set_lt (d : List Nat) (i v : Nat) (hd : ∀ b ∈ d, b < 256) (hv : v < 256) :
    ∀ b ∈ d.set i v, b < 256 := by
  intro b hb
  rcases List.mem_or_eq_of_mem_set hb with h | h
  · exact hd b h
  · rw [h]; exact hv

set_option maxRecDepth 100000 in
/-- The checked stamping function reports an out-of-bounds access for a
payload of one byte, for a byte value above 255 and for a data length beyond
the payload. -/
theorem checked_stamp_of_bad_input :
    (bmw_update_pkt_checked pkt_counters_init 0x3FD [0x00] 1).isNone = true
    ∧ (bmw_update_pkt_checked pkt_counters_init 0x3FD [0x00, 0x00, 0x100] 3).isNone = true
    ∧ (bmw_update_pkt_checked pkt_counters_init 0x3FD [0x00, 0x00, 0x20] 4).isNone = true := by
  decide

theorem strstr_starts_with_needle (haystack needle str : List Char) (h : strstr haystack needle = some str) :
    needle <+: str := by
  induction haystack with
  | nil =>
    unfold strstr at h
    split_ifs at h with hn
    · cases h
      rw [hn]
  | cons c rest ih =>
    unfold strstr at h
    split_ifs at h with hp
    · cases h
      exact List.isPrefixOf_iff_prefix.1 hp
    · exact ih h

theorem c_str_at_of_le (str : List Char) (i : Nat) (h : i ≤ str.length) :
    ∃ ch, c_str_at str i = some ch := by
  unfold c_str_at
  split_ifs with h1 h2
  · exact ⟨_, rfl⟩
  · exact ⟨_, rfl⟩
  · omega

theorem c_str_at_eq_none (str : List Char) (i : Nat) :
    c_str_at str i = none ↔ str.length < i := by
  unfold c_str_at
  split_ifs with h1 h2
  · simp; omega
  · simp; omega
  · simp; omega

/-- The parser reads beyond the terminator exactly for a set-gear-indication
command that ends right after the key `"gear":"`. -/
theorem parser_reads_beyond_iff (atoi : List Char → Int) (json_str : List Char)
    (out : serial_out_t) :
    serial_process_received_data atoi json_str out = none
      ↔ (strstr json_str "\"type\":\"set_backlight\"".toList).isSome = false
        ∧ (strstr json_str "\"type\":\"set_gear_indication\"".toList).isSome = true
        ∧ strstr json_str "\"gear\":\"".toList = some "\"gear\":\"".toList := by
  have hpb : ∀ str, strstr json_str "\"button\":\"".toList = some str → 10 ≤ str.length := by
    intro str hs
    exact (strstr_starts_with_needle _ _ _ hs).length_le
  have hpg : ∀ str, strstr json_str "\"gear\":\"".toList = some str →
      "\"gear\":\"".toList <+: str := fun str hs => strstr_starts_with_needle _ _ _ hs
  have hkey : "\"gear\":\"".toList.length = 8 := by decide
  unfold serial_process_received_data
  generalize "\"gear\":\"".toList = key at hpg hkey ⊢
  generalize strstr json_str key = g at hpg ⊢
  generalize strstr json_str "\"button\":\"".toList = bs at hpb ⊢
  generalize strstr json_str "\"action\":\"".toList = as
  generalize strstr json_str "\"level\":".toList = l
  generalize (strstr json_str "\"type\":\"set_backlight\"".toList).isSome = a
  generalize (strstr json_str "\"type\":\"set_gear_indication\"".toList).isSome = b
  generalize (strstr json_str "\"type\":\"hid_button\"".toList).isSome = c
  cases a
  · cases b
    · have hrhs : ¬ (false = false ∧ false = true ∧ g = some key) := fun h => by
        exact Bool.false_ne_true h.2.1
      refine ⟨fun h => ?_, fun h => absurd h hrhs⟩
      exfalso
      rw [if_neg Bool.false_ne_true, if_neg Bool.false_ne_true] at h
      cases c
      · rw [if_neg Bool.false_ne_true] at h
        cases h
      · rw [if_pos rfl] at h
        cases bs with
        | none => cases h
        | some button_str =>
          cases as with
          | none => cases h
          | some action_str =>
            obtain ⟨ch, hch⟩ := c_str_at_of_le button_str 10 (hpb _ rfl)
            simp only [hch] at h
            cases hbc : button_of_char ch with
            | none =>
              rw [hbc] at h
              cases h
            | some button =>
              rw [hbc] at h
              simp only [] at h
              split_ifs at h
    · rw [if_neg Bool.false_ne_true, if_pos rfl]
      cases g with
      | none =>
        refine ⟨fun h => ?_, fun h => ?_⟩
        · cases h
        · cases h.2.2
      | some gear_str =>
        have hpre := hpg gear_str rfl
        have hlen := hpre.length_le
        simp only []
        cases hc : c_str_at gear_str 9 with
        | none =>
          have hlt := (c_str_at_eq_none gear_str 9).1 hc
          have heq : key = gear_str := hpre.eq_of_length (by omega)
          simp only []
          rw [heq]
          simp
        | some gear_char =>
          have hne : ¬ gear_str.length < 9 := by
            intro hlt
            rw [(c_str_at_eq_none gear_str 9).2 hlt] at hc
            cases hc
          simp only []
          refine ⟨fun h => ?_, fun h => ?_⟩
          · exfalso
            cases hgc : gear_of_char gear_char with
            | none =>
              rw [hgc] at h
              cases h
            | some gear =>
              rw [hgc] at h
              cases h
          · exfalso
            have hgk : gear_str = key := Option.some.inj h.2.2
            rw [hgk] at hne
            omega
  · have hrhs : ¬ (true = false ∧ b = true ∧ g = some key) := fun h => by
      exact Bool.false_ne_true h.1.symm
    refine ⟨fun h => ?_, fun h => absurd h hrhs⟩
    exfalso
    rw [if_pos rfl] at h
    cases l with
    | none => cases h
    | some level_str =>
      simp only [] at h
      split_ifs at h

theorem bmw_lever_up_only_gear (s : bmw_shifter_state_t) :
    ∃ g, bmw_lever_up s = { s with current_gear := g } := by
  generalize hr : bmw_lever_up s = r
  unfold bmw_lever_up at hr
  split_ifs at hr <;> subst hr
  · exact ⟨_, rfl⟩
  · exact ⟨_, rfl⟩
  · exact ⟨_, rfl⟩
  · exact ⟨s.current_gear, rfl⟩

theorem bmw_lever_down_only_gear (s : bmw_shifter_state_t) :
    ∃ g, bmw_lever_down s = { s with current_gear := g } := by
  generalize hr : bmw_lever_down s = r
  unfold bmw_lever_down at hr
  split_ifs at hr <;> subst hr
  · exact ⟨_, rfl⟩
  · exact ⟨_, rfl⟩
  · exact ⟨_, rfl⟩
  · exact ⟨s.current_gear, rfl⟩

/-- The rule chain either touches the gear only, or (in M) decrements a
positive `manual_gear`, or (in M) increments `manual_gear` modulo 256. -/
theorem lever_rules_cases (s : bmw_shifter_state_t) (lever prev : Nat) :
    (∃ g, lever_rules s lever prev = { s with current_gear := g })
    ∨ (s.current_gear = GEAR_M ∧ 0 < s.manual_gear
        ∧ lever_rules s lever prev = { s with manual_gear := s.manual_gear - 1 })
    ∨ (s.current_gear = GEAR_M
        ∧ lever_rules s lever prev = { s with manual_gear := (s.manual_gear + 1) % 256 }) := by
  generalize hr : lever_rules s lever prev = r
  unfold lever_rules at hr
  split_ifs at hr with h1 h2 h3 h4 h5 h6 h7 h8 h9 h10 h11 <;> subst hr
  · exact Or.inl (bmw_lever_up_only_gear s)
  · exact Or.inl (bmw_lever_up_only_gear s)
  · exact Or.inl (bmw_lever_down_only_gear s)
  · exact Or.inl (bmw_lever_down_only_gear s)
  · exact Or.inl ⟨_, rfl⟩
  · exact Or.inl ⟨_, rfl⟩
  · exact Or.inr (Or.inl ⟨h7.2, h9, rfl⟩)
  · exact Or.inl ⟨s.current_gear, rfl⟩
  · exact Or.inr (Or.inr ⟨h7.2, rfl⟩)
  · exact Or.inl ⟨s.current_gear, rfl⟩
  · exact Or.inl ⟨s.current_gear, rfl⟩
  · exact Or.inl ⟨s.current_gear, rfl⟩

/-- Outside the park branch the gear and `manual_gear` of the result are
those the rule chain computes; in the park branch `manual_gear` is kept. -/
theorem process_fields (s : bmw_shifter_state_t) (lever park : Nat) :
    (park = PARK_BUTTON_PRESSED
      ∧ (bmw_process_lever_position s lever park).manual_gear = s.manual_gear)
    ∨ (park ≠ PARK_BUTTON_PRESSED
      ∧ (bmw_process_lever_position s lever park).manual_gear
          = (lever_rules s lever s.prev_lever_position).manual_gear
      ∧ (bmw_process_lever_position s lever park).current_gear
          = (lever_rules s lever s.prev_lever_position).current_gear) := by
  unfold bmw_process_lever_position
  split
  · rename_i hp
    exact Or.inl ⟨hp, rfl⟩
  · rename_i hp
    refine Or.inr ⟨hp, ?_, ?_⟩ <;> (simp only []; split <;> rfl)

theorem process_manual_gear_range (s : bmw_shifter_state_t) (lever park : Nat)
    (h : 0 ≤ s.manual_gear ∧ s.manual_gear < 256) :
    0 ≤ (bmw_process_lever_position s lever park).manual_gear
    ∧ (bmw_process_lever_position s lever park).manual_gear < 256 := by
  rcases process_fields s lever park with ⟨_, he⟩ | ⟨_, he, _⟩
  · rw [he]; exact h
  · rw [he]
    rcases lever_rules_cases s lever s.prev_lever_position with ⟨g, hc⟩ | hc | hc
    · rw [hc]; exact h
    · rw [hc.2.2]; simp only []; omega
    · rw [hc.2]; simp only []; omega

theorem foldl_manual_gear_range (frames : List (Nat × Nat)) (s : bmw_shifter_state_t)
    (h : 0 ≤ s.manual_gear ∧ s.manual_gear < 256) :
    0 ≤ (frames.foldl (fun st f => bmw_process_lever_position st f.1 f.2) s).manual_gear
    ∧ (frames.foldl (fun st f => bmw_process_lever_position st f.1 f.2) s).manual_gear
        < 256 := by
  induction frames generalizing s with
  | nil => exact h
  | cons f rest ih => exact ih _ (process_manual_gear_range s f.1 f.2 h)

/-- With `prev` equal to the new lever byte no rule of the chain fires. -/
theorem lever_rules_same_position (s : bmw_shifter_state_t) (lever : Nat) :
    lever_rules s lever lever = s := by
  unfold lever_rules
  simp only [LEVER_POS_CENTER_MIDDLE, LEVER_POS_UP_1, LEVER_POS_UP_2, LEVER_POS_DOWN_1,
    LEVER_POS_DOWN_2, LEVER_POS_CENTER_SIDE, LEVER_POS_SIDE_UP, LEVER_POS_SIDE_DOWN]
  split_ifs <;> first | rfl | (exfalso; omega)

/-- After any call the recorded `prev_lever_position` is the new lever byte. -/
theorem process_prev_lever_position (s : bmw_shifter_state_t) (lever park : Nat) :
    (bmw_process_lever_position s lever park).prev_lever_position = lever := by
  unfold bmw_process_lever_position
  split
  · rfl
  · simp only []
    split
    · rfl
    · rename_i hne
      have hsame : lever = s.prev_lever_position := by simpa using hne
      rw [← hsame, lever_rules_same_position]
      exact hsame.symm

/-- One tap at the side gate in M raises `manual_gear` by one below 255. -/
theorem tap_down_from_side (k : Int) (hlo : 0 ≤ k) (hhi : k < 255) :
    frames_tap_down.foldl (fun st f => bmw_process_lever_position st f.1 f.2)
      (manual_at_side k) = manual_at_side (k + 1) := by
  have hmod : (k + 1) % 256 = k + 1 := by omega
  simp [frames_tap_down, bmw_process_lever_position, lever_rules, manual_at_side, hmod]

theorem taps_down_from_side (n : Nat) (k : Int) (hlo : 0 ≤ k) (hhi : k + n ≤ 255) :
    (frames_taps_down n).foldl (fun st f => bmw_process_lever_position st f.1 f.2)
      (manual_at_side k) = manual_at_side (k + n) := by
  induction n generalizing k with
  | zero => simp [frames_taps_down]
  | succ m ih =>
    rw [frames_taps_down, List.foldl_append, tap_down_from_side k hlo (by omega),
      ih (k + 1) (by omega) (by push_cast at hhi; omega)]
    congr 1
    push_cast
    ring

/-- The frames `frames_into_manual` followed by 255 taps lead from the
initial state to M at side with `manual_gear = 255`. -/
theorem shifter_after_255_taps :
    shifter_after (frames_into_manual ++ frames_taps_down 255) = manual_at_side 255 := by
  have hinto : frames_into_manual.foldl
      (fun st f => bmw_process_lever_position st f.1 f.2) bmw_shifter_init
      = manual_at_side 0 := by decide
  rw [shifter_after, List.foldl_append, hinto, taps_down_from_side 255 0 (by omega) (by omega)]
  rfl

theorem process_lever_and_park (s : bmw_shifter_state_t) (lever park : Nat) :
    (bmw_process_lever_position s lever park).lever_position = lever
    ∧ (bmw_process_lever_position s lever park).park_button = park := by
  unfold bmw_process_lever_position
  split
  · exact ⟨rfl, rfl⟩
  · simp only []
    split <;> exact ⟨rfl, rfl⟩

/-- The rule chain returns the state as is, or a transition rule matches. -/
theorem lever_rules_same_or_match (s : bmw_shifter_state_t) (lever prev : Nat) :
    lever_rules s lever prev = s ∨ matches_transition_rule s.current_gear prev lever := by
  generalize hr : lever_rules s lever prev = r
  unfold lever_rules at hr
  unfold matches_transition_rule
  split_ifs at hr with h1 h2 h3 h4 h5 h6 h7 h8 h9 h10 h11 <;> subst hr
  · exact Or.inr (Or.inl ⟨h1.2, h1.1⟩)
  · exact Or.inr (Or.inr (Or.inl ⟨h2.2, h2.1⟩))
  · exact Or.inr (Or.inr (Or.inr (Or.inl ⟨h3.2, h3.1⟩)))
  · exact Or.inr (Or.inr (Or.inr (Or.inr (Or.inl ⟨h4.2, h4.1⟩))))
  · exact Or.inr (Or.inr (Or.inr (Or.inr (Or.inr (Or.inl ⟨h5.2.1, h5.1, h5.2.2⟩)))))
  · exact Or.inr (Or.inr (Or.inr (Or.inr (Or.inr (Or.inr (Or.inl ⟨h6.2.1, h6.1, h6.2.2⟩))))))
  · exact Or.inr (Or.inr (Or.inr (Or.inr (Or.inr (Or.inr (Or.inr ⟨h7.1, h7.2, Or.inl h8⟩))))))
  · exact Or.inl rfl
  · exact Or.inr (Or.inr (Or.inr (Or.inr (Or.inr (Or.inr (Or.inr ⟨h7.1, h7.2, Or.inr h10⟩))))))
  · exact Or.inl rfl
  · exact Or.inl rfl
  · exact Or.inl rfl

/-- When no transition rule matches, the rule chain returns the state as is. -/
theorem lever_rules_of_no_match (s : bmw_shifter_state_t) (lever prev : Nat)
    (hno : ¬ matches_transition_rule s.current_gear prev lever) :
    lever_rules s lever prev = s :=
  (lever_rules_same_or_match s lever prev).resolve_right hno

/-! ## Theorems -/

/-- C1: with the park button pressed (0xD5), for every state and every lever
byte the result has `current_gear = P`, `lever_position` and
`prev_lever_position` equal to the new lever byte, `park_button` pressed, and
`manual_gear` unchanged. -/
theorem park_pressed_yields_P (s : bmw_shifter_state_t) (lever : Nat) :
    (bmw_process_lever_position s lever PARK_BUTTON_PRESSED).current_gear = GEAR_P
    ∧ (bmw_process_lever_position s lever PARK_BUTTON_PRESSED).lever_position = lever
    ∧ (bmw_process_lever_position s lever PARK_BUTTON_PRESSED).park_button = PARK_BUTTON_PRESSED
    ∧ (bmw_process_lever_position s lever PARK_BUTTON_PRESSED).prev_lever_position = lever
    ∧ (bmw_process_lever_position s lever PARK_BUTTON_PRESSED).manual_gear = s.manual_gear := by
  simp [bmw_process_lever_position]

/-- C2: with the park button not pressed, on the edges centre to up-1 and
up-1 to up-2 the lever-up rule is applied: P becomes N, D becomes N, N becomes
R, R stays R; `manual_gear` is unchanged in every case. -/
theorem lever_up_edge_rule (s : bmw_shifter_state_t) (lever park : Nat)
    (hpark : park ≠ PARK_BUTTON_PRESSED)
    (hedge : (s.prev_lever_position = LEVER_POS_CENTER_MIDDLE ∧ lever = LEVER_POS_UP_1)
      ∨ (s.prev_lever_position = LEVER_POS_UP_1 ∧ lever = LEVER_POS_UP_2)) :
    (s.current_gear = GEAR_P →
        (bmw_process_lever_position s lever park).current_gear = GEAR_N)
    ∧ (s.current_gear = GEAR_D →
        (bmw_process_lever_position s lever park).current_gear = GEAR_N)
    ∧ (s.current_gear = GEAR_N →
        (bmw_process_lever_position s lever park).current_gear = GEAR_R)
    ∧ (s.current_gear = GEAR_R →
        (bmw_process_lever_position s lever park).current_gear = GEAR_R)
    ∧ (bmw_process_lever_position s lever park).manual_gear = s.manual_gear := by
  rcases hedge with ⟨hp, hl⟩ | ⟨hp, hl⟩ <;>
    cases hg : s.current_gear <;>
    simp [bmw_process_lever_position, lever_rules, bmw_lever_up, hpark, hp, hl, hg]

/-- Witness of C2 at the initial state: centre to up-1 in P gives N. -/
theorem lever_up_edge_rule_witness :
    PARK_BUTTON_NORMAL ≠ PARK_BUTTON_PRESSED
    ∧ (bmw_process_lever_position bmw_shifter_init LEVER_POS_UP_1 PARK_BUTTON_NORMAL).current_gear
        = GEAR_N
    ∧ (bmw_process_lever_position bmw_shifter_init LEVER_POS_UP_1 PARK_BUTTON_NORMAL).manual_gear
        = 0 :=
  ⟨by decide,
   (lever_up_edge_rule bmw_shifter_init LEVER_POS_UP_1 PARK_BUTTON_NORMAL (by decide)
      (Or.inl ⟨rfl, rfl⟩)).1 rfl,
   (lever_up_edge_rule bmw_shifter_init LEVER_POS_UP_1 PARK_BUTTON_NORMAL (by decide)
      (Or.inl ⟨rfl, rfl⟩)).2.2.2.2⟩

/-- C3: with the park button not pressed, on the edges centre to down-1 and
down-1 to down-2 the lever-down rule is applied: P becomes D, N becomes D, R
becomes N, D stays D; `manual_gear` is unchanged in every case. -/
theorem lever_down_edge_rule (s : bmw_shifter_state_t) (lever park : Nat)
    (hpark : park ≠ PARK_BUTTON_PRESSED)
    (hedge : (s.prev_lever_position = LEVER_POS_CENTER_MIDDLE ∧ lever = LEVER_POS_DOWN_1)
      ∨ (s.prev_lever_position = LEVER_POS_DOWN_1 ∧ lever = LEVER_POS_DOWN_2)) :
    (s.current_gear = GEAR_P →
        (bmw_process_lever_position s lever park).current_gear = GEAR_D)
    ∧ (s.current_gear = GEAR_N →
        (bmw_process_lever_position s lever park).current_gear = GEAR_D)
    ∧ (s.current_gear = GEAR_R →
        (bmw_process_lever_position s lever park).current_gear = GEAR_N)
    ∧ (s.current_gear = GEAR_D →
        (bmw_process_lever_position s lever park).current_gear = GEAR_D)
    ∧ (bmw_process_lever_position s lever park).manual_gear = s.manual_gear := by
  rcases hedge with ⟨hp, hl⟩ | ⟨hp, hl⟩ <;>
    cases hg : s.current_gear <;>
    simp [bmw_process_lever_position, lever_rules, bmw_lever_down, hpark, hp, hl, hg]

/-- Witness of C3 at the initial state: centre to down-1 in P gives D. -/
theorem lever_down_edge_rule_witness :
    PARK_BUTTON_NORMAL ≠ PARK_BUTTON_PRESSED
    ∧ (bmw_process_lever_position bmw_shifter_init LEVER_POS_DOWN_1
        PARK_BUTTON_NORMAL).current_gear = GEAR_D
    ∧ (bmw_process_lever_position bmw_shifter_init LEVER_POS_DOWN_1
        PARK_BUTTON_NORMAL).manual_gear = 0 :=
  ⟨by decide,
   (lever_down_edge_rule bmw_shifter_init LEVER_POS_DOWN_1 PARK_BUTTON_NORMAL (by decide)
      (Or.inl ⟨rfl, rfl⟩)).1 rfl,
   (lever_down_edge_rule bmw_shifter_init LEVER_POS_DOWN_1 PARK_BUTTON_NORMAL (by decide)
      (Or.inl ⟨rfl, rfl⟩)).2.2.2.2⟩

/-- C4: with the park button not pressed, in D the move centre to side gives
M, in M the move side to centre gives D, and in both transitions
`manual_gear` keeps its prior value. -/
theorem side_gate_toggles_D_and_M (s : bmw_shifter_state_t) (park : Nat)
    (hpark : park ≠ PARK_BUTTON_PRESSED) :
    (s.current_gear = GEAR_D → s.prev_lever_position = LEVER_POS_CENTER_MIDDLE →
        (bmw_process_lever_position s LEVER_POS_CENTER_SIDE park).current_gear = GEAR_M
        ∧ (bmw_process_lever_position s LEVER_POS_CENTER_SIDE park).manual_gear
            = s.manual_gear)
    ∧ (s.current_gear = GEAR_M → s.prev_lever_position = LEVER_POS_CENTER_SIDE →
        (bmw_process_lever_position s LEVER_POS_CENTER_MIDDLE park).current_gear = GEAR_D
        ∧ (bmw_process_lever_position s LEVER_POS_CENTER_MIDDLE park).manual_gear
            = s.manual_gear) := by
  constructor <;> intro hg hp <;>
    simp [bmw_process_lever_position, lever_rules, hpark, hp, hg]

/-- Witness of C4: from D at centre with `manual_gear = 3`, centre to side
gives M with `manual_gear = 3`. -/
theorem side_gate_toggles_D_and_M_witness :
    PARK_BUTTON_NORMAL ≠ PARK_BUTTON_PRESSED
    ∧ (bmw_process_lever_position drive_at_center LEVER_POS_CENTER_SIDE
        PARK_BUTTON_NORMAL).current_gear = GEAR_M
    ∧ (bmw_process_lever_position drive_at_center LEVER_POS_CENTER_SIDE
        PARK_BUTTON_NORMAL).manual_gear = 3 :=
  ⟨by decide,
   (side_gate_toggles_D_and_M drive_at_center PARK_BUTTON_NORMAL (by decide)).1 rfl rfl⟩

/-- C5 as stated fails: the state reached from `bmw_shifter_init` by the
frames `frames_into_manual` and 255 taps is in M with `prev` at side and
`manual_gear = 255`; a side-down reading with the park button normal then
leaves `manual_gear = 0`, which is not the prior value plus one. -/
theorem side_down_wraps_at_255 :
    (shifter_after (frames_into_manual ++ frames_taps_down 255)).current_gear = GEAR_M
    ∧ (shifter_after (frames_into_manual ++ frames_taps_down 255)).prev_lever_position
        = LEVER_POS_CENTER_SIDE
    ∧ (shifter_after (frames_into_manual ++ frames_taps_down 255)).manual_gear = 255
    ∧ PARK_BUTTON_NORMAL ≠ PARK_BUTTON_PRESSED
    ∧ (bmw_process_lever_position (shifter_after (frames_into_manual ++ frames_taps_down 255))
        LEVER_POS_SIDE_DOWN PARK_BUTTON_NORMAL).manual_gear = 0
    ∧ (bmw_process_lever_position (shifter_after (frames_into_manual ++ frames_taps_down 255))
        LEVER_POS_SIDE_DOWN PARK_BUTTON_NORMAL).manual_gear
        ≠ (shifter_after (frames_into_manual ++ frames_taps_down 255)).manual_gear + 1 := by
  rw [shifter_after_255_taps]
  decide

/-- C5, amended: in M with `prev` at side and the park button not pressed, a
side-down reading increments `manual_gear` by exactly 1 for every prior value
from 0 to 254 of the 8-bit field, and `current_gear` stays M for every prior
value. -/
theorem side_down_increments_below_255 (s : bmw_shifter_state_t) (park : Nat)
    (hgear : s.current_gear = GEAR_M)
    (hprev : s.prev_lever_position = LEVER_POS_CENTER_SIDE)
    (hpark : park ≠ PARK_BUTTON_PRESSED) :
    (0 ≤ s.manual_gear → s.manual_gear < 255 →
        (bmw_process_lever_position s LEVER_POS_SIDE_DOWN park).manual_gear
          = s.manual_gear + 1)
    ∧ (bmw_process_lever_position s LEVER_POS_SIDE_DOWN park).current_gear = GEAR_M := by
  refine ⟨fun hlo hhi => ?_, ?_⟩
  · simp [bmw_process_lever_position, lever_rules, hpark, hprev, hgear]
    omega
  · simp [bmw_process_lever_position, lever_rules, hpark, hprev, hgear]

/-- Witness of amended C5: from `manual_gear = 7` a side-down reading gives 8
and the gear stays M. -/
theorem side_down_increments_below_255_witness :
    (bmw_process_lever_position (manual_at_side 7) LEVER_POS_SIDE_DOWN
        PARK_BUTTON_NORMAL).manual_gear = 7 + 1
    ∧ (bmw_process_lever_position (manual_at_side 7) LEVER_POS_SIDE_DOWN
        PARK_BUTTON_NORMAL).current_gear = GEAR_M :=
  ⟨(side_down_increments_below_255 (manual_at_side 7) PARK_BUTTON_NORMAL rfl rfl
      (by decide)).1 (by decide) (by decide),
   (side_down_increments_below_255 (manual_at_side 7) PARK_BUTTON_NORMAL rfl rfl
      (by decide)).2⟩

/-- C6: in M with `prev` at side and the park button not pressed, a side-up
reading decrements `manual_gear` by 1 when it is positive and leaves it at 0
when it is 0; `current_gear` stays M. -/
theorem side_up_decrements_with_floor (s : bmw_shifter_state_t) (park : Nat)
    (hgear : s.current_gear = GEAR_M)
    (hprev : s.prev_lever_position = LEVER_POS_CENTER_SIDE)
    (hpark : park ≠ PARK_BUTTON_PRESSED) :
    (0 < s.manual_gear →
        (bmw_process_lever_position s LEVER_POS_SIDE_UP park).manual_gear = s.manual_gear - 1)
    ∧ (s.manual_gear = 0 →
        (bmw_process_lever_position s LEVER_POS_SIDE_UP park).manual_gear = 0)
    ∧ (bmw_process_lever_position s LEVER_POS_SIDE_UP park).current_gear = GEAR_M := by
  refine ⟨fun hpos => ?_, fun hzero => ?_, ?_⟩
  · simp [bmw_process_lever_position, lever_rules, hpark, hprev, hgear, hpos]
  · simp [bmw_process_lever_position, lever_rules, hpark, hprev, hgear, hzero]
  · by_cases hpos : 0 < s.manual_gear <;>
      simp [bmw_process_lever_position, lever_rules, hpark, hprev, hgear, hpos]

/-- Witness of C6: from `manual_gear = 7` a side-up reading gives 6, and from
`manual_gear = 0` it gives 0. -/
theorem side_up_decrements_with_floor_witness :
    (bmw_process_lever_position (manual_at_side 7) LEVER_POS_SIDE_UP
        PARK_BUTTON_NORMAL).manual_gear = 7 - 1
    ∧ (bmw_process_lever_position (manual_at_side 0) LEVER_POS_SIDE_UP
        PARK_BUTTON_NORMAL).manual_gear = 0
    ∧ (bmw_process_lever_position (manual_at_side 0) LEVER_POS_SIDE_UP
        PARK_BUTTON_NORMAL).current_gear = GEAR_M :=
  ⟨(side_up_decrements_with_floor (manual_at_side 7) PARK_BUTTON_NORMAL rfl rfl
      (by decide)).1 (by decide),
   (side_up_decrements_with_floor (manual_at_side 0) PARK_BUTTON_NORMAL rfl rfl
      (by decide)).2.1 rfl,
   (side_up_decrements_with_floor (manual_at_side 0) PARK_BUTTON_NORMAL rfl rfl
      (by decide)).2.2⟩

/-- C7: whenever `bmw_process_lever_position` changes `manual_gear`, the gear
before the call was M; and in every state reached from `bmw_shifter_init` by
any sequence of readings `manual_gear` is not negative (it stays in 0..255). -/
theorem manual_gear_changes_only_in_M_and_never_negative :
    (∀ (s : bmw_shifter_state_t) (lever park : Nat),
        (bmw_process_lever_position s lever park).manual_gear ≠ s.manual_gear →
        s.current_gear = GEAR_M)
    ∧ (∀ frames : List (Nat × Nat),
        0 ≤ (shifter_after frames).manual_gear ∧ (shifter_after frames).manual_gear < 256) := by
  constructor
  · intro s lever park hchg
    rcases process_fields s lever park with ⟨_, he⟩ | ⟨_, he, _⟩
    · exact absurd he hchg
    · rcases lever_rules_cases s lever s.prev_lever_position with ⟨g, hc⟩ | hc | hc
      · rw [hc] at he
        exact absurd he hchg
      · exact hc.1
      · exact hc.1
  · intro frames
    exact foldl_manual_gear_range frames bmw_shifter_init (by decide)

/-- C8: `bmw_shifter_init` gives lever centre, park normal, gear P, prev
centre; from it the reading (up-1, normal) gives N, then (up-2, normal) gives
R, and then a reading with the park button pressed gives P for every lever
byte. -/
theorem init_up1_up2_park_sequence :
    bmw_shifter_init.lever_position = LEVER_POS_CENTER_MIDDLE
    ∧ bmw_shifter_init.park_button = PARK_BUTTON_NORMAL
    ∧ bmw_shifter_init.current_gear = GEAR_P
    ∧ bmw_shifter_init.prev_lever_position = LEVER_POS_CENTER_MIDDLE
    ∧ (shifter_after [(LEVER_POS_UP_1, PARK_BUTTON_NORMAL)]).current_gear = GEAR_N
    ∧ (shifter_after [(LEVER_POS_UP_1, PARK_BUTTON_NORMAL),
        (LEVER_POS_UP_2, PARK_BUTTON_NORMAL)]).current_gear = GEAR_R
    ∧ ∀ lever : Nat,
        (shifter_after [(LEVER_POS_UP_1, PARK_BUTTON_NORMAL),
          (LEVER_POS_UP_2, PARK_BUTTON_NORMAL), (lever, PARK_BUTTON_PRESSED)]).current_gear
          = GEAR_P := by
  refine ⟨rfl, rfl, rfl, rfl, by decide, by decide, fun lever => ?_⟩
  simp [shifter_after, bmw_process_lever_position]

/-- C9: applying `bmw_process_lever_position` twice with the same reading
gives exactly the state of applying it once. -/
theorem repeated_reading_is_idempotent (s : bmw_shifter_state_t) (lever park : Nat) :
    bmw_process_lever_position (bmw_process_lever_position s lever park) lever park
      = bmw_process_lever_position s lever park := by
  have hprev := process_prev_lever_position s lever park
  have hlp := process_lever_and_park s lever park
  have hgear : park = PARK_BUTTON_PRESSED →
      (bmw_process_lever_position s lever park).current_gear = GEAR_P := by
    intro hp
    simp [bmw_process_lever_position, hp]
  generalize bmw_process_lever_position s lever park = t at hprev hlp hgear
  obtain ⟨tl, tp, tg, tm, tv⟩ := t
  simp only [] at hprev hlp hgear
  obtain ⟨hl, hp⟩ := hlp
  subst hprev hl hp
  unfold bmw_process_lever_position
  split
  · rename_i hpressed
    rw [hgear hpressed]
  · simp only [lever_rules_same_position, ne_eq, not_true_eq_false, if_false]

/-- C10: with the park button not pressed, when the pair (prev, new lever)
with the current gear matches none of the transition rules, `current_gear`
and `manual_gear` are unchanged; this holds in particular on a return to
centre from a non-centre position (other than side to centre in M, which is a
rule) and for every lever byte outside the eight defined positions. -/
theorem no_rule_matched_keeps_gear (s : bmw_shifter_state_t) (lever park : Nat)
    (hpark : park ≠ PARK_BUTTON_PRESSED) :
    (¬ matches_transition_rule s.current_gear s.prev_lever_position lever →
        (bmw_process_lever_position s lever park).current_gear = s.current_gear
        ∧ (bmw_process_lever_position s lever park).manual_gear = s.manual_gear)
    ∧ (lever = LEVER_POS_CENTER_MIDDLE → s.prev_lever_position ≠ LEVER_POS_CENTER_MIDDLE →
        ¬ (s.prev_lever_position = LEVER_POS_CENTER_SIDE ∧ s.current_gear = GEAR_M) →
        (bmw_process_lever_position s lever park).current_gear = s.current_gear
        ∧ (bmw_process_lever_position s lever park).manual_gear = s.manual_gear)
    ∧ (¬ is_defined_position lever →
        (bmw_process_lever_position s lever park).current_gear = s.current_gear
        ∧ (bmw_process_lever_position s lever park).manual_gear = s.manual_gear) := by
  have key : ¬ matches_transition_rule s.current_gear s.prev_lever_position lever →
      (bmw_process_lever_position s lever park).current_gear = s.current_gear
      ∧ (bmw_process_lever_position s lever park).manual_gear = s.manual_gear := by
    intro hno
    rcases process_fields s lever park with ⟨hp, _⟩ | ⟨_, hm, hg⟩
    · exact absurd hp hpark
    · rw [hm, hg, lever_rules_of_no_match s lever _ hno]
      exact ⟨rfl, rfl⟩
  refine ⟨key, fun hl hprev hside => key ?_, fun hundef => key ?_⟩
  · subst hl
    intro hmatch
    unfold matches_transition_rule at hmatch
    simp at hmatch
    exact hside hmatch
  · unfold matches_transition_rule
    unfold is_defined_position at hundef
    tauto

/-- Witness of C10: from the initial state the undefined lever byte 0xFF with
the park button normal leaves the gear at P and `manual_gear` at 0. -/
theorem no_rule_matched_keeps_gear_witness :
    PARK_BUTTON_NORMAL ≠ PARK_BUTTON_PRESSED
    ∧ ¬ is_defined_position 0xFF
    ∧ (bmw_process_lever_position bmw_shifter_init 0xFF PARK_BUTTON_NORMAL).current_gear
        = GEAR_P
    ∧ (bmw_process_lever_position bmw_shifter_init 0xFF PARK_BUTTON_NORMAL).manual_gear = 0 :=
  ⟨by decide, by decide,
   (no_rule_matched_keeps_gear bmw_shifter_init 0xFF PARK_BUTTON_NORMAL (by decide)).2.2
      (by decide)⟩

/-- C11: for every frame identifier that is neither one of the 32 seeded
identifiers nor the checksum-exempt 0x202, `bmw_update_pkt` is a no-op: the
payload and the whole counter table are returned unchanged. -/
theorem unknown_id_is_noop (c : Nat → Nat) (can_id : Nat) (data : List Nat) (data_len : Nat)
    (hunknown : can_id ∉ known_can_ids) (hexempt : can_id ≠ CAN_ID_BACKLIGHT) :
    bmw_update_pkt c can_id data data_len = (c, data) := by
  simp [bmw_update_pkt, get_crc_start_value_of_unknown can_id hunknown, hexempt]

/-- Witness of C11: the heartbeat identifier 0x55E has no seed; its payload
comes back unchanged. -/
theorem unknown_id_is_noop_witness :
    (0x55E ∉ known_can_ids ∧ 0x55E ≠ CAN_ID_BACKLIGHT)
    ∧ (bmw_update_pkt pkt_counters_init 0x55E [0, 0, 0, 0, 0x02, 0, 0, 0x5E] 8).2
        = [0, 0, 0, 0, 0x02, 0, 0, 0x5E] :=
  ⟨by decide,
   congrArg Prod.snd
     (unknown_id_is_noop pkt_counters_init 0x55E [0, 0, 0, 0, 0x02, 0, 0, 0x5E] 8
       (by decide) (by decide))⟩

/-- C12: for every seeded identifier (and for 0x202) and every payload of
length at least 2, `bmw_update_pkt` makes byte 1 equal to
`(byte1 AND 0xF0) OR c` with `c` the identifier's current counter, so that for
a counter below 16 the low nibble is `c` and the high nibble of the byte is
preserved; afterwards the identifier's counter is `(c + 1) mod 15`; the
counter of an identifier never stamped is 0, at start-up and after any
sequence of calls for other identifiers. -/
theorem counter_stamped_and_advanced (c : Nat → Nat) (can_id : Nat) (data : List Nat)
    (hid : can_id ∈ known_can_ids ∨ can_id = CAN_ID_BACKLIGHT) (hlen : 2 ≤ data.length) :
    (bmw_update_pkt c can_id data data.length).2.getD 1 0
      = (data.getD 1 0 &&& 0xF0) ||| c can_id
    ∧ (c can_id < 16 →
        (bmw_update_pkt c can_id data data.length).2.getD 1 0 % 16 = c can_id)
    ∧ (c can_id < 16 → data.getD 1 0 < 256 →
        (bmw_update_pkt c can_id data data.length).2.getD 1 0 / 16 = data.getD 1 0 / 16)
    ∧ (bmw_update_pkt c can_id data data.length).1 can_id = (c can_id + 1) % 15
    ∧ pkt_counters_init can_id = 0
    ∧ (∀ calls : List (Nat × List Nat), calls.countP (fun call => call.1 = can_id) = 0 →
        counters_after calls pkt_counters_init can_id = 0) := by
  have hbyte : (bmw_update_pkt c can_id data data.length).2.getD 1 0
      = (data.getD 1 0 &&& 0xF0) ||| c can_id := by
    obtain ⟨b0, b1, rest, rfl⟩ : ∃ b0 b1 rest, data = b0 :: b1 :: rest := by
      match data, hlen with
      | b0 :: b1 :: rest, _ => exact ⟨b0, b1, rest, rfl⟩
    rcases hid with hid | hid
    · rw [bmw_update_pkt_of_known c can_id _ _ hid]
      simp
    · subst hid
      rw [bmw_update_pkt_backlight]
      simp
  refine ⟨hbyte, fun hc => ?_, fun hc hb => ?_, ?_, rfl, fun calls h0 => ?_⟩
  · rw [hbyte]
    exact low_nibble_of_stamp _ _ hc
  · rw [hbyte]
    exact high_nibble_of_stamp _ hb _ hc
  · rw [bmw_update_pkt_counter c can_id can_id data _ hid]
    simp
  · rw [counters_after_eq calls pkt_counters_init can_id hid, if_pos h0]
    rfl

/-- Witness of C12: the first stamp of the gear-display frame 0x3FD writes
counter 0 into byte 1 of `[0, 0xA0, 0x20, 0x0C, 0xFF]` and leaves counter 1. -/
theorem counter_stamped_and_advanced_witness :
    (bmw_update_pkt pkt_counters_init CAN_ID_DISPLAY_GEAR
        [0, 0xA0, 0x20, 0x0C, 0xFF] 5).2.getD 1 0 = 0xA0
    ∧ (bmw_update_pkt pkt_counters_init CAN_ID_DISPLAY_GEAR
        [0, 0xA0, 0x20, 0x0C, 0xFF] 5).1 CAN_ID_DISPLAY_GEAR = 1 :=
  ⟨(counter_stamped_and_advanced pkt_counters_init CAN_ID_DISPLAY_GEAR
      [0, 0xA0, 0x20, 0x0C, 0xFF] (Or.inl (by decide)) (by decide)).1,
   (counter_stamped_and_advanced pkt_counters_init CAN_ID_DISPLAY_GEAR
      [0, 0xA0, 0x20, 0x0C, 0xFF] (Or.inl (by decide)) (by decide)).2.2.2.1⟩

/-- C13: for every seeded identifier (and 0x202), after any sequence of
`bmw_update_pkt` calls from the all-zero counter table the identifier's
counter is the number of calls made for it modulo 15, hence at most 14; the
next call for it, the `n`-th counting from 0, stamps `n mod 15` into the low
nibble of byte 1, which is never 15. -/
theorem counter_cycles_0_to_14 (calls : List (Nat × List Nat)) (can_id : Nat)
    (data : List Nat)
    (hid : can_id ∈ known_can_ids ∨ can_id = CAN_ID_BACKLIGHT) (hlen : 2 ≤ data.length) :
    counters_after calls pkt_counters_init can_id
      = calls.countP (fun call => call.1 = can_id) % 15
    ∧ counters_after calls pkt_counters_init can_id ≤ 14
    ∧ (bmw_update_pkt (counters_after calls pkt_counters_init) can_id data
        data.length).2.getD 1 0 % 16 = calls.countP (fun call => call.1 = can_id) % 15
    ∧ (bmw_update_pkt (counters_after calls pkt_counters_init) can_id data
        data.length).2.getD 1 0 % 16 ≠ 15 := by
  have hcnt : counters_after calls pkt_counters_init can_id
      = calls.countP (fun call => call.1 = can_id) % 15 := by
    rw [counters_after_eq calls pkt_counters_init can_id hid]
    split_ifs with h0
    · rw [h0]
      rfl
    · simp [pkt_counters_init]
  have hlt : counters_after calls pkt_counters_init can_id < 15 := by
    rw [hcnt]
    exact Nat.mod_lt _ (by norm_num)
  have hnib := (counter_stamped_and_advanced (counters_after calls pkt_counters_init)
    can_id data hid hlen).2.1 (by omega)
  refine ⟨hcnt, by omega, ?_, ?_⟩
  · rw [hnib, hcnt]
  · rw [hnib]
    omega

/-- Witness of C13: after 16 stamps of frame 0x3FD the counter is
`16 mod 15 = 1`, and the next stamp writes 1 into the low nibble. -/
theorem counter_cycles_0_to_14_witness :
    counters_after (List.replicate 16 (CAN_ID_DISPLAY_GEAR, [0, 0, 0x20, 0x0C, 0xFF]))
        pkt_counters_init CAN_ID_DISPLAY_GEAR
      = (List.replicate 16 (CAN_ID_DISPLAY_GEAR, [0, 0, 0x20, 0x0C, 0xFF])).countP
          (fun call => call.1 = CAN_ID_DISPLAY_GEAR) % 15
    ∧ counters_after (List.replicate 16 (CAN_ID_DISPLAY_GEAR, [0, 0, 0x20, 0x0C, 0xFF]))
        pkt_counters_init CAN_ID_DISPLAY_GEAR ≤ 14 :=
  ⟨(counter_cycles_0_to_14 (List.replicate 16 (CAN_ID_DISPLAY_GEAR, [0, 0, 0x20, 0x0C, 0xFF]))
      CAN_ID_DISPLAY_GEAR [0, 0, 0x20, 0x0C, 0xFF] (Or.inl (by decide)) (by decide)).1,
   (counter_cycles_0_to_14 (List.replicate 16 (CAN_ID_DISPLAY_GEAR, [0, 0, 0x20, 0x0C, 0xFF]))
      CAN_ID_DISPLAY_GEAR [0, 0, 0x20, 0x0C, 0xFF] (Or.inl (by decide)) (by decide)).2.1⟩

/-- C14: for each of the 32 seeded identifiers and every payload of length at
least 2, after `bmw_update_pkt` byte 0 is the fold `crc := crc_table[crc XOR b]`
started at the identifier's seed and run over the output bytes 1..end, where
output byte 1 carries the freshly stamped counter nibble and bytes 2..end are
the input's; the output payload therefore is the same for any two inputs that
agree on the counter value and on bytes 1..end, whatever their byte 0. -/
theorem checksum_folds_stamped_bytes (c : Nat → Nat) (can_id : Nat) (data : List Nat)
    (hid : can_id ∈ known_can_ids) (hlen : 2 ≤ data.length) :
    (bmw_update_pkt c can_id data data.length).2.getD 0 0
      = crc_fold (get_crc_start_value can_id)
          ((bmw_update_pkt c can_id data data.length).2.drop 1)
    ∧ (bmw_update_pkt c can_id data data.length).2.drop 1
      = ((data.getD 1 0 &&& 0xF0) ||| c can_id) :: data.drop 2
    ∧ ∀ (c2 : Nat → Nat) (data2 : List Nat), c2 can_id = c can_id →
        data2.drop 1 = data.drop 1 →
        (bmw_update_pkt c2 can_id data2 data2.length).2
          = (bmw_update_pkt c can_id data data.length).2 := by
  obtain ⟨b0, b1, rest, rfl⟩ : ∃ b0 b1 rest, data = b0 :: b1 :: rest := by
    match data, hlen with
    | b0 :: b1 :: rest, _ => exact ⟨b0, b1, rest, rfl⟩
  refine ⟨?_, ?_, ?_⟩
  · rw [bmw_update_pkt_of_known c can_id _ _ hid]
    have hl : (b0 :: b1 :: rest).length
        = ((b0 :: b1 :: rest).set 1 ((List.getD (b0 :: b1 :: rest) 1 0 &&& 0xF0)
            ||| c can_id)).length := by simp
    rw [hl, crc_loop_eq_crc_fold]
    simp
  · rw [bmw_update_pkt_of_known c can_id _ _ hid]
    simp
  · intro c2 data2 hc hd
    have hl2 : data2.length = (b0 :: b1 :: rest).length := by
      have := congrArg List.length hd
      simp only [List.length_drop, List.length_cons] at this
      simp only [List.length_cons]
      omega
    obtain ⟨a0, a1, rest2, rfl⟩ : ∃ a0 a1 rest2, data2 = a0 :: a1 :: rest2 := by
      match data2, hl2 with
      | a0 :: a1 :: rest2, _ => exact ⟨a0, a1, rest2, rfl⟩
    simp only [List.drop_succ_cons, List.drop_zero, List.cons.injEq] at hd
    obtain ⟨h1, hrest⟩ := hd
    subst h1 hrest
    rw [bmw_update_pkt_of_known c2 can_id _ _ hid, bmw_update_pkt_of_known c can_id _ _ hid]
    have hl : ∀ x : Nat, (x :: a1 :: rest2).length
        = ((x :: a1 :: rest2).set 1 ((List.getD (x :: a1 :: rest2) 1 0 &&& 0xF0)
            ||| c can_id)).length := by simp
    rw [hc]
    simp only []
    rw [hl a0, hl b0, crc_loop_eq_crc_fold, crc_loop_eq_crc_fold]
    simp

/-- Witness of C14: the first stamp of `[0xAA, 0, 0x20, 0x0C, 0xFF]` for frame
0x3FD puts the fold over `[0, 0x20, 0x0C, 0xFF]` from seed 0xD7 in byte 0. -/
theorem checksum_folds_stamped_bytes_witness :
    (bmw_update_pkt pkt_counters_init CAN_ID_DISPLAY_GEAR
        [0xAA, 0, 0x20, 0x0C, 0xFF] 5).2.drop 1 = [0, 0x20, 0x0C, 0xFF]
    ∧ (bmw_update_pkt pkt_counters_init CAN_ID_DISPLAY_GEAR
        [0xAA, 0, 0x20, 0x0C, 0xFF] 5).2.getD 0 0
      = crc_fold (get_crc_start_value CAN_ID_DISPLAY_GEAR)
          ((bmw_update_pkt pkt_counters_init CAN_ID_DISPLAY_GEAR
            [0xAA, 0, 0x20, 0x0C, 0xFF] 5).2.drop 1) :=
  ⟨(checksum_folds_stamped_bytes pkt_counters_init CAN_ID_DISPLAY_GEAR
      [0xAA, 0, 0x20, 0x0C, 0xFF] (by decide) (by decide)).2.1,
   (checksum_folds_stamped_bytes pkt_counters_init CAN_ID_DISPLAY_GEAR
      [0xAA, 0, 0x20, 0x0C, 0xFF] (by decide) (by decide)).1⟩

/-- C15: for the checksum-exempt identifier 0x202 and every payload of length
at least 2, `bmw_update_pkt` only stamps the counter: the output has the
input's length and bytes except byte 1, whose low nibble holds the counter
(for a counter below 16) and whose high nibble is the input's; byte 0 is
unchanged; the counter of 0x202 becomes `(c + 1) mod 15` and no other counter
changes. -/
theorem backlight_id_only_counter (c : Nat → Nat) (data : List Nat)
    (hlen : 2 ≤ data.length) :
    (bmw_update_pkt c CAN_ID_BACKLIGHT data data.length).2.length = data.length
    ∧ (∀ i : Nat, i ≠ 1 →
        (bmw_update_pkt c CAN_ID_BACKLIGHT data data.length).2.getD i 0 = data.getD i 0)
    ∧ (bmw_update_pkt c CAN_ID_BACKLIGHT data data.length).2.getD 0 0 = data.getD 0 0
    ∧ (c CAN_ID_BACKLIGHT < 16 →
        (bmw_update_pkt c CAN_ID_BACKLIGHT data data.length).2.getD 1 0 % 16
          = c CAN_ID_BACKLIGHT)
    ∧ (c CAN_ID_BACKLIGHT < 16 → data.getD 1 0 < 256 →
        (bmw_update_pkt c CAN_ID_BACKLIGHT data data.length).2.getD 1 0 / 16
          = data.getD 1 0 / 16)
    ∧ (bmw_update_pkt c CAN_ID_BACKLIGHT data data.length).1 CAN_ID_BACKLIGHT
        = (c CAN_ID_BACKLIGHT + 1) % 15
    ∧ (∀ other : Nat, other ≠ CAN_ID_BACKLIGHT →
        (bmw_update_pkt c CAN_ID_BACKLIGHT data data.length).1 other = c other) := by
  have hstamp := counter_stamped_and_advanced c CAN_ID_BACKLIGHT data (Or.inr rfl) hlen
  have hother : ∀ i : Nat, i ≠ 1 →
      (bmw_update_pkt c CAN_ID_BACKLIGHT data data.length).2.getD i 0 = data.getD i 0 := by
    intro i hi
    rw [bmw_update_pkt_backlight]
    simp [List.getD_eq_getElem?_getD, List.getElem?_set, Ne.symm hi]
  refine ⟨?_, hother, hother 0 (by decide), hstamp.2.1, hstamp.2.2.1, hstamp.2.2.2.1, ?_⟩
  · rw [bmw_update_pkt_backlight]
    simp
  · intro other ho
    rw [bmw_update_pkt_backlight]
    simp [Function.update, ho]

/-- Witness of C15: the first stamp of `[0xFE, 0x35]` for frame 0x202 gives
`[0xFE, 0x30]` (byte 0 kept, low nibble of byte 1 set to counter 0). -/
theorem backlight_id_only_counter_witness :
    (bmw_update_pkt pkt_counters_init CAN_ID_BACKLIGHT [0xFE, 0x35] 2).2.getD 0 0 = 0xFE
    ∧ (bmw_update_pkt pkt_counters_init CAN_ID_BACKLIGHT [0xFE, 0x35] 2).1 CAN_ID_BACKLIGHT
        = 1 :=
  ⟨(backlight_id_only_counter pkt_counters_init [0xFE, 0x35] (by decide)).2.2.1,
   (backlight_id_only_counter pkt_counters_init [0xFE, 0x35] (by decide)).2.2.2.2.2.1⟩

/-- C16: `bmw_get_gear_indication` returns 0x20 for P, 0x40 for R, 0x60 for N
and 0x81 for both D and M; and for gear M with the lever at side the
gear-display emitter embeds 0x81 in byte 2 of the message and stores it as
the current indication. -/
theorem gear_indication_bytes :
    bmw_get_gear_indication GEAR_P = 0x20
    ∧ bmw_get_gear_indication GEAR_R = 0x40
    ∧ bmw_get_gear_indication GEAR_N = 0x60
    ∧ bmw_get_gear_indication GEAR_D = 0x81
    ∧ bmw_get_gear_indication GEAR_M = 0x81
    ∧ ∀ st : main_state_t, st.shifter_state.current_gear = GEAR_M →
        st.shifter_state.lever_position = LEVER_POS_CENTER_SIDE →
        3 ≤ st.gear_display_msg.length →
        (timer_gear_display_callback st).gear_display_msg.getD 2 0 = 0x81
        ∧ (timer_gear_display_callback st).current_gear_indication = 0x81 := by
  refine ⟨rfl, rfl, rfl, rfl, rfl, fun st hg hl hlen => ?_⟩
  have hind : display_gear_ind st.shifter_state = 0x81 := by
    simp [display_gear_ind, hg, hl]
  constructor
  · show (bmw_update_pkt st.pkt_counters CAN_ID_DISPLAY_GEAR _ 5).2.getD 2 0 = 0x81
    rw [bmw_update_pkt_display_byte2, hind]
    have h2 : 2 < st.gear_display_msg.length := by omega
    simp [List.getD_eq_getElem?_getD, List.getElem?_set, h2]
  · exact hind

/-- C17, evaluated on the code: the emitter never produces the indication
0x80 that the controller's D case expects. In gear D (lever not at side) the
emitter stores 0x81, and the controller tick on which the indication changes
to it makes no `usb_hid_send_button` call, leaves the button mask at 0 and no
button pressed: the D button is not pressed. In gear N the indication is 0x60
and the tick presses N as a timed press (press time `now`, hold flag clear,
bit 0 of the mask set). -/
theorem drive_indication_presses_no_button :
    (∀ s : bmw_shifter_state_t, display_gear_ind s ≠ 0x80)
    ∧ state_in_drive.shifter_state.current_gear = GEAR_D
    ∧ state_in_drive.shifter_state.lever_position ≠ LEVER_POS_CENTER_SIDE
    ∧ (timer_gear_display_callback state_in_drive).current_gear_indication = 0x81
    ∧ (timer_gear_display_callback state_in_drive).prev_gear_indication ≠ 0x81
    ∧ (hid_update_task host_ready 500 80
        (timer_gear_display_callback state_in_drive)).hid_calls = []
    ∧ (hid_update_task host_ready 500 80
        (timer_gear_display_callback state_in_drive)).gamepad_report.buttons = 0
    ∧ (hid_update_task host_ready 500 80
        (timer_gear_display_callback state_in_drive)).button_is_pressed = false
    ∧ (timer_gear_display_callback state_in_neutral).current_gear_indication = 0x60
    ∧ (hid_update_task host_ready 500 80
        (timer_gear_display_callback state_in_neutral)).hid_calls
        = [(HID_BUTTON_N, HID_ACTION_PRESS)]
    ∧ (hid_update_task host_ready 500 80
        (timer_gear_display_callback state_in_neutral)).gamepad_report.buttons = 1
    ∧ (hid_update_task host_ready 500 80
        (timer_gear_display_callback state_in_neutral)).button_press_time = 500
    ∧ (hid_update_task host_ready 500 80
        (timer_gear_display_callback state_in_neutral)).button_should_hold = false := by
  refine ⟨display_gear_ind_ne_0x80, ?_, ?_, ?_, ?_, ?_, ?_, ?_, ?_, ?_, ?_, ?_, ?_⟩ <;> decide

/-- C20: with the HID sink ready, on an evaluation where the lever position or
the M-mode membership differs from the last evaluated one,
`update_hid_plus_minus_buttons` presses Plus if and only if the gear is M and
the lever is at side-up, presses Minus if and only if the gear is M and the
lever is at side-down, and presses no other button. -/
theorem plus_minus_pressed_iff_side_in_M (host : usb_host_t) (now : Nat) (st : main_state_t)
    (hready : usb_hid_is_ready host = true)
    (hchg : st.shifter_state.lever_position ≠ st.last_lever_pos
      ∨ decide (st.shifter_state.current_gear = GEAR_M) ≠ st.last_was_m_mode) :
    ((HID_BUTTON_PLUS, HID_ACTION_PRESS)
        ∈ calls_since st (update_hid_plus_minus_buttons host now st)
      ↔ st.shifter_state.current_gear = GEAR_M
        ∧ st.shifter_state.lever_position = LEVER_POS_SIDE_UP)
    ∧ ((HID_BUTTON_MINUS, HID_ACTION_PRESS)
        ∈ calls_since st (update_hid_plus_minus_buttons host now st)
      ↔ st.shifter_state.current_gear = GEAR_M
        ∧ st.shifter_state.lever_position = LEVER_POS_SIDE_DOWN)
    ∧ (∀ b : hid_button_t, (b, HID_ACTION_PRESS)
        ∈ calls_since st (update_hid_plus_minus_buttons host now st) →
        b = HID_BUTTON_PLUS ∨ b = HID_BUTTON_MINUS) := by
  have hcalls := plus_minus_press_calls host now st hready hchg
  refine ⟨?_, ?_, fun b hb => ?_⟩
  · rw [press_mem_iff_mem_filter, hcalls]
    split_ifs with h1 h2
    · simp [h1]
    · simp [h1]
    · simp [h1]
  · rw [press_mem_iff_mem_filter, hcalls]
    split_ifs with h1 h2
    · have hne : ¬ st.shifter_state.lever_position = LEVER_POS_SIDE_DOWN := by
        rw [h1.2]
        decide
      simp [hne]
    · simp [h2]
    · simp [h2]
  · rw [press_mem_iff_mem_filter, hcalls] at hb
    split_ifs at hb with h1 h2
    · left
      simpa using hb
    · right
      simpa using hb
    · simp at hb

/-- Witness of C20: in M with the lever moved to side-up the evaluation
presses Plus; in M with the lever at side it presses nothing. -/
theorem plus_minus_pressed_iff_side_in_M_witness :
    (HID_BUTTON_PLUS, HID_ACTION_PRESS)
        ∈ calls_since
            { state_in_manual_side with
              shifter_state := bmw_process_lever_position (manual_at_side 2)
                LEVER_POS_SIDE_UP PARK_BUTTON_NORMAL }
            (update_hid_plus_minus_buttons host_ready 500
              { state_in_manual_side with
                shifter_state := bmw_process_lever_position (manual_at_side 2)
                  LEVER_POS_SIDE_UP PARK_BUTTON_NORMAL })
    ∧ ¬ (HID_BUTTON_MINUS, HID_ACTION_PRESS)
        ∈ calls_since state_in_manual_side
            (update_hid_plus_minus_buttons host_ready 500 state_in_manual_side) :=
  ⟨(plus_minus_pressed_iff_side_in_M host_ready 500
      { state_in_manual_side with
        shifter_state := bmw_process_lever_position (manual_at_side 2)
          LEVER_POS_SIDE_UP PARK_BUTTON_NORMAL }
      rfl (Or.inl (by decide))).1.2 (by decide),
   fun hmem => absurd
     ((plus_minus_pressed_iff_side_in_M host_ready 500 state_in_manual_side
        rfl (Or.inl (by decide))).2.1.1 hmem).2 (by decide)⟩

/-- On a change of gear indication while a button is tracked as pressed,
if the tracked button is R and the new indication is R the controller makes
no release call; otherwise every press call it makes is preceded by the
release of the tracked button, which is its first call, and with the HID
sink ready that release is made and is followed by press calls only. -/
theorem tracked_release_precedes_press (host : usb_host_t) (now : Nat) (st : main_state_t)
    (hchg : st.current_gear_indication ≠ st.prev_gear_indication)
    (hpressed : st.button_is_pressed = true) :
    (st.current_gear_indication = 0x40 ∧ st.pressed_button = HID_BUTTON_R →
        ∀ b : hid_button_t, (b, HID_ACTION_RELEASE)
          ∉ calls_since st (update_hid_buttons_from_gear_indication host now st))
    ∧ (¬ (st.current_gear_indication = 0x40 ∧ st.pressed_button = HID_BUTTON_R) →
        ∀ b : hid_button_t, (b, HID_ACTION_PRESS)
          ∈ calls_since st (update_hid_buttons_from_gear_indication host now st) →
        (calls_since st (update_hid_buttons_from_gear_indication host now st)).head?
          = some (st.pressed_button, HID_ACTION_RELEASE))
    ∧ (¬ (st.current_gear_indication = 0x40 ∧ st.pressed_button = HID_BUTTON_R) →
        usb_hid_is_ready host = true →
        ∃ presses : List (hid_button_t × hid_action_t),
          calls_since st (update_hid_buttons_from_gear_indication host now st)
            = (st.pressed_button, HID_ACTION_RELEASE) :: presses
          ∧ ∀ call ∈ presses, call.2 = HID_ACTION_PRESS) := by
  cases hready : usb_hid_is_ready host
  · rw [gear_controller_of_not_ready host now st hready, calls_since_self]
    refine ⟨fun _ b hb => ?_, fun _ b hb => ?_, fun _ h => ?_⟩
    · simp at hb
    · simp at hb
    · simp at h
  · rw [gear_controller_calls host now st hready hchg]
    refine ⟨fun hex b hb => ?_, fun hnex b _ => ?_, fun hnex _ => ?_⟩
    · rw [if_neg (fun h => h.2 hex), if_pos hex.1] at hb
      simp at hb
    · rw [if_pos ⟨hpressed, hnex⟩]
      rfl
    · rw [if_pos ⟨hpressed, hnex⟩]
      refine ⟨_, rfl, fun call hcall => ?_⟩
      split_ifs at hcall <;> simp_all

/-- C21, evaluated on the code: after the events
`events_neutral_plus_then_reverse` the gear button N is pressed (bit 0 of the
mask set, the press at tick 500 was never followed by a release) while the
controller tracks Plus, and the indication has changed from 0x60 to 0x40; the
gear-button controller at tick 570 releases Plus and presses R, without a
release of N: bits 0 (N) and 1 (R) are both set afterwards, also after the
whole loop iteration. -/
theorem pressed_gear_button_not_released_on_change :
    neutral_set_plus_tracked.hid_calls
      = [(HID_BUTTON_N, HID_ACTION_PRESS), (HID_BUTTON_PLUS, HID_ACTION_PRESS)]
    ∧ neutral_set_plus_tracked.gamepad_report.buttons.testBit
        (button_to_gamepad_number HID_BUTTON_N - 1) = true
    ∧ neutral_set_plus_tracked.button_is_pressed = true
    ∧ neutral_set_plus_tracked.pressed_button = HID_BUTTON_PLUS
    ∧ neutral_set_plus_tracked.prev_gear_indication = 0x60
    ∧ neutral_set_plus_tracked.current_gear_indication = 0x40
    ∧ calls_since neutral_set_plus_tracked
        (update_hid_buttons_from_gear_indication host_ready 570 neutral_set_plus_tracked)
        = [(HID_BUTTON_PLUS, HID_ACTION_RELEASE), (HID_BUTTON_R, HID_ACTION_PRESS)]
    ∧ (update_hid_buttons_from_gear_indication host_ready 570
        neutral_set_plus_tracked).gamepad_report.buttons = 3
    ∧ (update_hid_buttons_from_gear_indication host_ready 570
        neutral_set_plus_tracked).gamepad_report.buttons.testBit
        (button_to_gamepad_number HID_BUTTON_N - 1) = true
    ∧ (update_hid_buttons_from_gear_indication host_ready 570
        neutral_set_plus_tracked).gamepad_report.buttons.testBit
        (button_to_gamepad_number HID_BUTTON_R - 1) = true
    ∧ calls_since neutral_set_plus_tracked
        (hid_update_task host_ready 570 80 neutral_set_plus_tracked)
        = [(HID_BUTTON_PLUS, HID_ACTION_RELEASE), (HID_BUTTON_R, HID_ACTION_PRESS)]
    ∧ (hid_update_task host_ready 570 80 neutral_set_plus_tracked).gamepad_report.buttons
        = 3 := by
  decide

/-- C22 as stated fails when the HID sink is not ready: with R held (bit 1 of
the mask set) and the shifter silent for more than the timeout, the
supervisory iteration marks the shifter disconnected but releases nothing and
does not reset the press state; and since it records the loss as seen, the
next iteration, with the sink ready again, releases nothing either. -/
theorem connection_loss_not_handled_when_not_ready :
    reverse_held_connected.was_connected = true
    ∧ reverse_held_connected.shifter_connected = true
    ∧ R_is_held reverse_held_connected
    ∧ 2000 < (5000 + 2 ^ 32 - reverse_held_connected.last_heartbeat_time) % 2 ^ 32
    ∧ (app_main_loop host_not_ready 5000 2000 reverse_held_connected).shifter_connected = false
    ∧ (app_main_loop host_not_ready 5000 2000
        reverse_held_connected).gamepad_report.buttons.testBit 1 = true
    ∧ (app_main_loop host_not_ready 5000 2000 reverse_held_connected).button_is_pressed = true
    ∧ (app_main_loop host_not_ready 5000 2000 reverse_held_connected).button_press_time
        = UINT32_MAX
    ∧ (app_main_loop host_not_ready 5000 2000 reverse_held_connected).button_should_hold = true
    ∧ (app_main_loop host_ready 6000 2000
        (app_main_loop host_not_ready 5000 2000
          reverse_held_connected)).gamepad_report.buttons.testBit 1 = true
    ∧ (app_main_loop host_ready 6000 2000
        (app_main_loop host_not_ready 5000 2000 reverse_held_connected)).button_is_pressed
        = true := by
  decide

/-- C22, amended: with the HID sink ready, on loss of connection (the shifter
was connected at the previous iteration and is now marked disconnected, or
its silence exceeds the timeout), whatever the press time, hold flag and
pressed button, the supervisory iteration makes the seven release calls for
P, R, N, D, M, Plus and Minus, after which their bits (0-4, 29, 30) are clear
and every other bit of the 32-bit mask, the Unlock bit 31 included, is
unchanged, and the press state is idle (`button_is_pressed = false`,
`button_press_time = 0`, `button_should_hold = false`). -/
theorem connection_loss_releases_all (host : usb_host_t) (now timeout_ticks : Nat)
    (st : main_state_t) (hready : usb_hid_is_ready host = true)
    (hwas : st.was_connected = true)
    (hloss : st.shifter_connected = false
      ∨ timeout_ticks < (now + 2 ^ 32 - st.last_heartbeat_time) % 2 ^ 32) :
    calls_since st (app_main_loop host now timeout_ticks st)
      = [(HID_BUTTON_P, HID_ACTION_RELEASE), (HID_BUTTON_R, HID_ACTION_RELEASE),
          (HID_BUTTON_N, HID_ACTION_RELEASE), (HID_BUTTON_D, HID_ACTION_RELEASE),
          (HID_BUTTON_M, HID_ACTION_RELEASE), (HID_BUTTON_PLUS, HID_ACTION_RELEASE),
          (HID_BUTTON_MINUS, HID_ACTION_RELEASE)]
    ∧ (∀ button : hid_button_t, button ≠ HID_BUTTON_UNLOCK →
        (app_main_loop host now timeout_ticks st).gamepad_report.buttons.testBit
          (button_to_gamepad_number button - 1) = false)
    ∧ (∀ i : Nat, i < 32 → i ∉ [0, 1, 2, 3, 4, 29, 30] →
        (app_main_loop host now timeout_ticks st).gamepad_report.buttons.testBit i
          = st.gamepad_report.buttons.testBit i)
    ∧ (app_main_loop host now timeout_ticks st).gamepad_report.buttons.testBit 31
        = st.gamepad_report.buttons.testBit 31
    ∧ (app_main_loop host now timeout_ticks st).button_is_pressed = false
    ∧ (app_main_loop host now timeout_ticks st).button_press_time = 0
    ∧ (app_main_loop host now timeout_ticks st).button_should_hold = false := by
  have hmask : (app_main_loop host now timeout_ticks st).gamepad_report.buttons
      = st.gamepad_report.buttons &&& 0x9FFFFFE0 := by
    rw [app_main_loop_of_loss host now timeout_ticks st hready hwas hloss]
    show (release_all_buttons host _).gamepad_report.buttons = _
    rw [release_all_buttons_mask host hready]
  have hclear : ∀ i : Nat, i < 32 → Nat.testBit 0x9FFFFFE0 i = decide (i ∉ [0, 1, 2, 3, 4, 29, 30]) := by
    decide
  refine ⟨?_, fun button hb => ?_, fun i hi hni => ?_, ?_, ?_, ?_, ?_⟩
  · rw [app_main_loop_of_loss host now timeout_ticks st hready hwas hloss]
    show (release_all_buttons host _).hid_calls.drop _ = _
    rw [release_all_buttons_calls]
    simp
  · have hr := button_number_range button
    rw [hmask, Nat.testBit_and, hclear _ (by omega)]
    cases button <;> first | exact absurd rfl hb | simp [button_to_gamepad_number]
  · rw [hmask, Nat.testBit_and, hclear i hi]
    simp [hni]
  · rw [hmask, Nat.testBit_and, hclear 31 (by decide)]
    simp
  · rw [app_main_loop_of_loss host now timeout_ticks st hready hwas hloss]
  · rw [app_main_loop_of_loss host now timeout_ticks st hready hwas hloss]
  · rw [app_main_loop_of_loss host now timeout_ticks st hready hwas hloss]

/-- Witness of amended C22: with the sink ready, the supervisory iteration at
tick 5000 on the silent shifter with R held clears bit 1 and resets the press
state. -/
theorem connection_loss_releases_all_witness :
    (app_main_loop host_ready 5000 2000 reverse_held_connected).gamepad_report.buttons.testBit
        (button_to_gamepad_number HID_BUTTON_R - 1) = false
    ∧ (app_main_loop host_ready 5000 2000 reverse_held_connected).button_is_pressed = false
    ∧ (app_main_loop host_ready 5000 2000 reverse_held_connected).button_press_time = 0
    ∧ (app_main_loop host_ready 5000 2000 reverse_held_connected).button_should_hold = false :=
  ⟨(connection_loss_releases_all host_ready 5000 2000 reverse_held_connected rfl
      (by decide) (Or.inr (by decide))).2.1 HID_BUTTON_R (by decide),
   (connection_loss_releases_all host_ready 5000 2000 reverse_held_connected rfl
      (by decide) (Or.inr (by decide))).2.2.2.2.1,
   (connection_loss_releases_all host_ready 5000 2000 reverse_held_connected rfl
      (by decide) (Or.inr (by decide))).2.2.2.2.2.1,
   (connection_loss_releases_all host_ready 5000 2000 reverse_held_connected rfl
      (by decide) (Or.inr (by decide))).2.2.2.2.2.2⟩

/-- C23, evaluated on the code: with R held before the disconnection, the
disconnect handling (sink ready) releases R and sets
`current_gear_indication` to 0 but leaves `prev_gear_indication` at 0x40; the
gear-display emitter, which keeps running, stores 0x40 again for the
unchanged gear R; when a lever frame arrives again, the first controller
iteration finds the indication equal to the last evaluated one, makes no
`usb_hid_send_button` call, and the R bit stays clear with no button tracked as
pressed, at that iteration and at a later one. -/
theorem reconnect_in_R_does_not_press_R :
    R_is_held reverse_held_connected
    ∧ (app_main_loop host_ready 5000 2000 reverse_held_connected).current_gear_indication = 0
    ∧ (app_main_loop host_ready 5000 2000 reverse_held_connected).prev_gear_indication = 0x40
    ∧ (app_main_loop host_ready 5000 2000 reverse_held_connected).shifter_state_initialized
        = false
    ∧ (app_main_loop host_ready 5000 2000
        reverse_held_connected).gamepad_report.buttons.testBit 1 = false
    ∧ reverse_reconnected.shifter_state.current_gear = GEAR_R
    ∧ reverse_reconnected.shifter_state_initialized = true
    ∧ reverse_reconnected.current_gear_indication = 0x40
    ∧ display_gear_ind reverse_reconnected.shifter_state = 0x40
    ∧ calls_since reverse_reconnected (hid_update_task host_ready 6010 80 reverse_reconnected)
        = []
    ∧ (hid_update_task host_ready 6010 80
        reverse_reconnected).gamepad_report.buttons.testBit 1 = false
    ∧ (hid_update_task host_ready 6010 80 reverse_reconnected).button_is_pressed = false
    ∧ calls_since reverse_reconnected
        (hid_update_task host_ready 9000 80
          (timer_gear_display_callback
            (hid_update_task host_ready 6010 80 reverse_reconnected))) = []
    ∧ (hid_update_task host_ready 9000 80
        (timer_gear_display_callback
          (hid_update_task host_ready 6010 80
            reverse_reconnected))).gamepad_report.buttons.testBit 1 = false := by
  decide

/-- C24: `usb_hid_send_button` numbers the buttons N=1, R=2, D=3, M=4, P=5,
Plus=30, Minus=31, Unlock=32; with the HID sink ready a press sets bit
(number - 1) of the button mask and leaves every other bit unchanged, a
release clears that bit and leaves every other bit of the 32-bit mask
unchanged; a 32-bit mask stays a 32-bit mask, and the six axes and the hat
byte are unchanged in both cases. -/
theorem send_button_changes_one_bit (host : usb_host_t)
    (hready : usb_hid_is_ready host = true) (report : custom_gamepad_report_t)
    (button : hid_button_t) :
    (button_to_gamepad_number HID_BUTTON_N = 1 ∧ button_to_gamepad_number HID_BUTTON_R = 2
      ∧ button_to_gamepad_number HID_BUTTON_D = 3 ∧ button_to_gamepad_number HID_BUTTON_M = 4
      ∧ button_to_gamepad_number HID_BUTTON_P = 5
      ∧ button_to_gamepad_number HID_BUTTON_PLUS = 30
      ∧ button_to_gamepad_number HID_BUTTON_MINUS = 31
      ∧ button_to_gamepad_number HID_BUTTON_UNLOCK = 32)
    ∧ (usb_hid_send_button host report button HID_ACTION_PRESS).2.buttons.testBit
        (button_to_gamepad_number button - 1) = true
    ∧ (∀ i : Nat, i ≠ button_to_gamepad_number button - 1 →
        (usb_hid_send_button host report button HID_ACTION_PRESS).2.buttons.testBit i
          = report.buttons.testBit i)
    ∧ (usb_hid_send_button host report button HID_ACTION_RELEASE).2.buttons.testBit
        (button_to_gamepad_number button - 1) = false
    ∧ (∀ i : Nat, i < 32 → i ≠ button_to_gamepad_number button - 1 →
        (usb_hid_send_button host report button HID_ACTION_RELEASE).2.buttons.testBit i
          = report.buttons.testBit i)
    ∧ (∀ action : hid_action_t, report.buttons < 2 ^ 32 →
        (usb_hid_send_button host report button action).2.buttons < 2 ^ 32)
    ∧ (∀ action : hid_action_t,
        (usb_hid_send_button host report button action).2
          = { report with
              buttons := (usb_hid_send_button host report button action).2.buttons }) := by
  have hr := button_number_range button
  refine ⟨⟨rfl, rfl, rfl, rfl, rfl, rfl, rfl, rfl⟩, ?_, fun i hi => ?_, ?_, fun i hi hne => ?_,
    fun action hlt => ?_, fun action => ?_⟩
  · rw [usb_hid_send_button_of_ready host hready]
    simp only [if_true]
    rw [testBit_press]
    simp
  · rw [usb_hid_send_button_of_ready host hready]
    simp only [if_true]
    rw [testBit_press]
    simp [Ne.symm hi]
  · rw [usb_hid_send_button_of_ready host hready]
    simp only [reduceCtorEq, if_false]
    rw [testBit_release _ _ _ (by omega)]
    simp
  · rw [usb_hid_send_button_of_ready host hready]
    simp only [reduceCtorEq, if_false]
    rw [testBit_release _ _ _ hi]
    simp [Ne.symm hne]
  · rw [usb_hid_send_button_of_ready host hready]
    cases action
    · simp only [if_true]
      apply Nat.or_lt_two_pow hlt
      rw [Nat.one_shiftLeft]
      exact Nat.pow_lt_pow_right (by norm_num) (by omega)
    · simp only [reduceCtorEq, if_false]
      exact Nat.lt_of_le_of_lt Nat.and_le_left hlt
  · rw [usb_hid_send_button_of_ready host hready]
    split_ifs <;> rfl

/-- Witness of C24: on an all-zero mask a press of Plus gives the mask
`2^29`, bit 29 set. -/
theorem send_button_changes_one_bit_witness :
    usb_hid_is_ready host_ready = true
    ∧ (usb_hid_send_button host_ready main_state_init.gamepad_report HID_BUTTON_PLUS
        HID_ACTION_PRESS).2.buttons.testBit (button_to_gamepad_number HID_BUTTON_PLUS - 1)
        = true :=
  ⟨rfl, (send_button_changes_one_bit host_ready rfl main_state_init.gamepad_report
    HID_BUTTON_PLUS).2.1⟩

/-- C25: when the HID sink is not ready, `usb_hid_send_button` returns the
not-ready status and the report unchanged, the two controller functions and
the whole loop iteration of `hid_update_task` return the program state
unchanged, so pressed button, press time, hold flag, last evaluated
indication and lever position are all as before, and no call is logged. -/
theorem not_ready_is_noop (host : usb_host_t) (hnot : usb_hid_is_ready host = false) :
    (∀ (report : custom_gamepad_report_t) (button : hid_button_t) (action : hid_action_t),
        usb_hid_send_button host report button action = (ESP_ERR_INVALID_STATE, report))
    ∧ (∀ (now : Nat) (st : main_state_t),
        update_hid_buttons_from_gear_indication host now st = st)
    ∧ (∀ (now : Nat) (st : main_state_t), update_hid_plus_minus_buttons host now st = st)
    ∧ (∀ (now press_ticks : Nat) (st : main_state_t),
        hid_update_task host now press_ticks st = st) := by
  refine ⟨fun report button action => ?_, fun now st => ?_, fun now st => ?_,
    fun now press_ticks st => ?_⟩
  · simp [usb_hid_send_button, hnot]
  · simp [update_hid_buttons_from_gear_indication, hnot]
  · simp [update_hid_plus_minus_buttons, hnot]
  · simp [hid_update_task, hnot]

/-- Witness of C25: with the sink not ready and the indication changed to N,
the gear-button controller leaves the state as it is, and a press of N leaves
the mask at 0. -/
theorem not_ready_is_noop_witness :
    usb_hid_is_ready host_not_ready = false
    ∧ update_hid_buttons_from_gear_indication host_not_ready 500
        (timer_gear_display_callback state_in_neutral)
      = timer_gear_display_callback state_in_neutral
    ∧ usb_hid_send_button host_not_ready main_state_init.gamepad_report HID_BUTTON_N
        HID_ACTION_PRESS = (ESP_ERR_INVALID_STATE, main_state_init.gamepad_report) :=
  ⟨rfl, (not_ready_is_noop host_not_ready rfl).2.1 500 _,
   (not_ready_is_noop host_not_ready rfl).1 _ _ _⟩

/-- C26: for a set-backlight command whose level text `atoi` reads as `n`,
`serial_process_received_data` returns true with backlight level `n` when
`0 ≤ n ≤ 254` and returns false with all outputs unchanged otherwise, so it
accepts if and only if `n` is in range; the caller then sets `backlight_level`
to `n`, respectively leaves the whole program state unchanged; and after any
sequence of events from the initial state `backlight_level` is at most 254 and
the level byte the backlight emitter embeds is that level, at most 254. -/
theorem backlight_accepted_iff_in_range (atoi : List Char → Int)
    (json_str level_str : List Char)
    (htype : (strstr json_str "\"type\":\"set_backlight\"".toList).isSome = true)
    (hlevel : strstr json_str "\"level\":".toList = some level_str) :
    (∀ out : serial_out_t,
        0 ≤ atoi (level_str.drop 8) ∧ atoi (level_str.drop 8) ≤ 254 →
        serial_process_received_data atoi json_str out
          = some (true, { out with backlight_level := (atoi (level_str.drop 8)).toNat }))
    ∧ (∀ out : serial_out_t,
        ¬ (0 ≤ atoi (level_str.drop 8) ∧ atoi (level_str.drop 8) ≤ 254) →
        serial_process_received_data atoi json_str out = some (false, out))
    ∧ (∀ out : serial_out_t,
        (serial_process_received_data atoi json_str out).map Prod.fst = some true
          ↔ 0 ≤ atoi (level_str.drop 8) ∧ atoi (level_str.drop 8) ≤ 254)
    ∧ (∀ (host : usb_host_t) (st : main_state_t),
        0 ≤ atoi (level_str.drop 8) ∧ atoi (level_str.drop 8) ≤ 254 →
        ((serial_rx_command host atoi json_str st).backlight_level : Int)
          = atoi (level_str.drop 8))
    ∧ (∀ (host : usb_host_t) (st : main_state_t),
        ¬ (0 ≤ atoi (level_str.drop 8) ∧ atoi (level_str.drop 8) ≤ 254) →
        serial_rx_command host atoi json_str st = st)
    ∧ (∀ (atoi2 : List Char → Int) (press_ticks timeout_ticks : Nat) (events : List event_t),
        (state_after atoi2 press_ticks timeout_ticks events).backlight_level ≤ 254
        ∧ (timer_backlight_callback
            (state_after atoi2 press_ticks timeout_ticks events)).backlight_msg.getD 0 0
          = (state_after atoi2 press_ticks timeout_ticks events).backlight_level
        ∧ (state_after atoi2 press_ticks timeout_ticks events).backlight_msg.getD 0 0 ≤ 254) := by
  have hparse := parser_set_backlight atoi json_str level_str
  refine ⟨fun out hin => ?_, fun out hout => ?_, fun out => ?_, fun host st hin => ?_,
    fun host st hout => ?_, fun atoi2 press_ticks timeout_ticks events => ?_⟩
  · rw [hparse out htype hlevel, if_pos hin]
  · rw [hparse out htype hlevel, if_neg hout]
  · rw [hparse out htype hlevel]
    split_ifs with hin
    · simp [hin]
    · simp [hin]
  · unfold serial_rx_command
    rw [hparse _ htype hlevel, if_pos hin]
    simp only []
    have hcast : (((atoi (level_str.drop 8)).toNat : Nat) : Int) = atoi (level_str.drop 8) :=
      Int.toNat_of_nonneg hin.1
    have hneg : ¬ ((-1 : Int) ≥ 0 ∧ (-1 : Int) ≥ 0) := by decide
    rw [if_neg hneg]
    split_ifs with h1
    · exact hcast
    · have heq : (atoi (level_str.drop 8)).toNat = st.backlight_level := by
        simpa using h1
      rw [← heq]
      exact hcast
  · unfold serial_rx_command
    rw [hparse _ htype hlevel, if_neg hout]
  · have hinit : backlight_in_range main_state_init := by
      unfold backlight_in_range
      decide
    have hinv := backlight_in_range_foldl atoi2 press_ticks timeout_ticks events
      main_state_init hinit
    obtain ⟨h1, h2, h3⟩ := hinv
    refine ⟨h1, ?_, h3⟩
    have hlen : (state_after atoi2 press_ticks timeout_ticks events).backlight_msg.length = 2 := h2
    have hpos : 0 < (state_after atoi2 press_ticks timeout_ticks events).backlight_msg.length := by
      omega
    simp [timer_backlight_callback, List.getD_eq_getElem?_getD, List.getElem?_set, hpos]

/-- Witness of C26: the command with level 128 is accepted with level 128,
the command with level 300 is rejected. -/
theorem backlight_accepted_iff_in_range_witness :
    serial_process_received_data atoi_decimal command_set_backlight_128 serial_out_init
      = some (true, { serial_out_init with backlight_level := 128 })
    ∧ serial_process_received_data atoi_decimal command_set_backlight_300 serial_out_init
      = some (false, serial_out_init) :=
  ⟨(backlight_accepted_iff_in_range atoi_decimal command_set_backlight_128
      "\"level\":128\x7d".toList (by decide) (by decide)).1 serial_out_init (by decide),
   (backlight_accepted_iff_in_range atoi_decimal command_set_backlight_300
      "\"level\":300\x7d".toList (by decide) (by decide)).2.1 serial_out_init (by decide)⟩

/-- C27, evaluated on the code: the key `"gear":"` has 8 characters and the
parser reads the character at index 9 of the text from the key on, one past
the gear character. For each gear character P, R, N, D, M the command
`{"type":"set_gear_indication","gear":"g"}` is rejected with the outputs
unchanged (the character read is the closing quote), whatever `atoi` is;
the gear D is accepted only when it comes second, as in `"gear":" D"`. -/
theorem set_gear_command_is_rejected :
    "\"gear\":\"".toList.length = 8
    ∧ (∀ g ∈ ['P', 'R', 'N', 'D', 'M'],
        (strstr (command_set_gear g) "\"gear\":\"".toList).map (fun str => c_str_at str 8)
          = some (some g)
        ∧ (strstr (command_set_gear g) "\"gear\":\"".toList).map (fun str => c_str_at str 9)
          = some (some (Char.ofNat 34)))
    ∧ (∀ (atoi : List Char → Int) (out : serial_out_t), ∀ g ∈ ['P', 'R', 'N', 'D', 'M'],
        serial_process_received_data atoi (command_set_gear g) out = some (false, out))
    ∧ command_set_gear 'D' = command_set_gear_D
    ∧ serial_process_received_data atoi_decimal
        "\x7b\"type\":\"set_gear_indication\",\"gear\":\" D\"\x7d".toList serial_out_init
      = some (true, { serial_out_init with gear_indication := GEAR_D }) := by
  refine ⟨by decide, by decide, fun atoi out g hg => ?_, by decide, by decide⟩
  have h1 : ¬ (strstr (command_set_gear g) "\"type\":\"set_backlight\"".toList).isSome = true := by
    revert g
    decide
  have h2 : (strstr (command_set_gear g) "\"type\":\"set_gear_indication\"".toList).isSome
      = true := by
    revert g
    decide
  have h3 : ∃ gear_str, strstr (command_set_gear g) "\"gear\":\"".toList = some gear_str
      ∧ c_str_at gear_str 9 = some (Char.ofNat 34) := by
    revert g
    decide
  obtain ⟨gear_str, hs, hc⟩ := h3
  unfold serial_process_received_data
  rw [if_neg h1, if_pos h2, hs]
  simp only [hc]
  have hq : gear_of_char (Char.ofNat 34) = none := by decide
  rw [hq]

/-- C28: whenever `serial_process_received_data` returns false, the four
outputs are as they were before the call. -/
theorem rejection_leaves_outputs (atoi : List Char → Int) (json_str : List Char)
    (out : serial_out_t)
    (hfalse : (serial_process_received_data atoi json_str out).map Prod.fst = some false) :
    (serial_process_received_data atoi json_str out).map Prod.snd = some out := by
  rcases parser_result_cases atoi json_str out with hr | hr | ⟨level, _, _, hr⟩ | ⟨gear, hr⟩
      | ⟨button, action, _, _, _, hr⟩
  all_goals rw [hr] at hfalse ⊢
  all_goals simp at hfalse ⊢

/-- Witness of C28: a button command with the valid button character P and the
unrecognised action `toggle` is rejected and writes neither the button nor the
action. -/
theorem rejection_leaves_outputs_witness :
    (serial_process_received_data atoi_decimal command_button_bad_action serial_out_init).map
        Prod.fst = some false
    ∧ (serial_process_received_data atoi_decimal command_button_bad_action serial_out_init).map
        Prod.snd = some serial_out_init :=
  ⟨by decide,
   rejection_leaves_outputs atoi_decimal command_button_bad_action serial_out_init (by decide)⟩

/-- C30, evaluated on the code: with the sink ready and no serial command,
after the events `events_neutral_then_plus` (N pressed at tick 500; then the
gear goes N, D, M and the lever to side-up before the gear-display timer
fires again; controller iteration at tick 540) the mask has both bit 0 (N)
and bit 29 (Plus) set while only Plus is tracked; after the further events of
`events_neutral_left_pressed` no button is tracked as pressed, yet bit 0 (N)
is still set at tick 5000. -/
theorem two_buttons_pressed_and_one_left :
    (state_after atoi_decimal 80 2000 events_neutral_then_plus).gamepad_report.buttons.testBit
        (button_to_gamepad_number HID_BUTTON_N - 1) = true
    ∧ (state_after atoi_decimal 80 2000 events_neutral_then_plus).gamepad_report.buttons.testBit
        (button_to_gamepad_number HID_BUTTON_PLUS - 1) = true
    ∧ (state_after atoi_decimal 80 2000 events_neutral_then_plus).pressed_button
        = HID_BUTTON_PLUS
    ∧ (state_after atoi_decimal 80 2000 events_neutral_then_plus).button_is_pressed = true
    ∧ (state_after atoi_decimal 80 2000 events_neutral_then_plus).hid_calls
        = [(HID_BUTTON_N, HID_ACTION_PRESS), (HID_BUTTON_PLUS, HID_ACTION_PRESS)]
    ∧ (state_after atoi_decimal 80 2000 events_neutral_left_pressed).button_is_pressed = false
    ∧ (state_after atoi_decimal 80 2000
        events_neutral_left_pressed).gamepad_report.buttons.testBit
        (button_to_gamepad_number HID_BUTTON_N - 1) = true
    ∧ (state_after atoi_decimal 80 2000 events_neutral_left_pressed).hid_calls
        = [(HID_BUTTON_N, HID_ACTION_PRESS), (HID_BUTTON_PLUS, HID_ACTION_PRESS),
           (HID_BUTTON_PLUS, HID_ACTION_RELEASE)] := by
  decide

/-- C31, evaluated on the code: for the command
`{"type":"set_gear_indication","gear":"`, which ends right after the key, the
text from the key on has 8 characters, its terminator is at index 8, and the
parser reads index 9, beyond the terminator. For every input the parser reads
beyond the terminator exactly when the input is a set-gear-indication command
ending right after the key `"gear":"`; the reads of the backlight and button
commands stay within the string (the button read at index 10 of a text ending
right after `"button":"` is the terminator, and the command is rejected). -/
theorem gear_read_is_beyond_terminator :
    (strstr command_gear_key_only "\"gear\":\"".toList).map List.length = some 8
    ∧ (strstr command_gear_key_only "\"gear\":\"".toList).map (fun str => c_str_at str 8)
        = some (some (Char.ofNat 0))
    ∧ (strstr command_gear_key_only "\"gear\":\"".toList).map (fun str => c_str_at str 9)
        = some none
    ∧ serial_process_received_data atoi_decimal command_gear_key_only serial_out_init = none
    ∧ (∀ (atoi : List Char → Int) (json_str : List Char) (out : serial_out_t),
        serial_process_received_data atoi json_str out = none
          ↔ (strstr json_str "\"type\":\"set_backlight\"".toList).isSome = false
            ∧ (strstr json_str "\"type\":\"set_gear_indication\"".toList).isSome = true
            ∧ strstr json_str "\"gear\":\"".toList = some "\"gear\":\"".toList)
    ∧ (strstr command_button_key_only "\"button\":\"".toList).map (fun str => c_str_at str 10)
        = some (some (Char.ofNat 0))
    ∧ serial_process_received_data atoi_decimal command_button_key_only serial_out_init
        = some (false, serial_out_init) :=
  ⟨by decide, by decide, by decide, by decide, parser_reads_beyond_iff, by decide, by decide⟩

/-- C32: for every frame identifier `A`, every payload of length at least 2
whose byte 1 is a byte, and every counter table, `bmw_update_pkt` keeps the
payload length, every byte at index 2 or above and the counter of every other
identifier `B ≠ A`; the high nibble of byte 1 is kept for every counter of `A`
below 16, in particular for every counter table reached from the all-zero
table by calls of `bmw_update_pkt`. So only byte 0, the low nibble of byte 1
and the counter of `A` can change. -/
theorem stamping_is_confined (c : Nat → Nat) (calls : List (Nat × List Nat)) (A : Nat)
    (data : List Nat) (data_len : Nat)
    (hlen : 2 ≤ data.length) (hbyte : data.getD 1 0 < 256) :
    (bmw_update_pkt c A data data_len).2.length = data.length
    ∧ (∀ i : Nat, 2 ≤ i → (bmw_update_pkt c A data data_len).2.getD i 0 = data.getD i 0)
    ∧ (∀ B : Nat, B ≠ A → (bmw_update_pkt c A data data_len).1 B = c B)
    ∧ (c A < 16 → (bmw_update_pkt c A data data_len).2.getD 1 0 / 16 = data.getD 1 0 / 16)
    ∧ (bmw_update_pkt (counters_after calls pkt_counters_init) A data data_len).2.getD 1 0 / 16
        = data.getD 1 0 / 16 := by
  have hhigh : ∀ c2 : Nat → Nat, c2 A < 16 →
      (bmw_update_pkt c2 A data data_len).2.getD 1 0 / 16 = data.getD 1 0 / 16 := by
    intro c2 hc2
    have hnib := high_nibble_of_stamp (data.getD 1 0) hbyte (c2 A) hc2
    unfold bmw_update_pkt
    simp only []
    split_ifs
    · rfl
    · simp [List.getD_eq_getElem?_getD, List.getElem?_set] at hnib ⊢
      rw [if_pos (by omega)]
      simpa using hnib
    · simp [List.getD_eq_getElem?_getD, List.getElem?_set] at hnib ⊢
      rw [if_pos (by omega)]
      simpa using hnib
  refine ⟨?_, ?_, ?_, hhigh c, ?_⟩
  · unfold bmw_update_pkt
    simp only []
    split_ifs <;> simp
  · intro i hi
    unfold bmw_update_pkt
    simp only []
    have h0 : ¬ 0 = i := by omega
    have h1 : ¬ 1 = i := by omega
    split_ifs <;> simp [List.getD_eq_getElem?_getD, List.getElem?_set, h0, h1]
  · intro B hB
    unfold bmw_update_pkt
    simp only []
    split_ifs <;> simp [Function.update, hB]
  · by_cases hk : A ∈ known_can_ids ∨ A = 0x202
    · apply hhigh
      rw [counters_after_eq calls pkt_counters_init A hk]
      split_ifs
      · simp [pkt_counters_init]
      · omega
    · have hnk : A ∉ known_can_ids := fun h => hk (Or.inl h)
      have hnb : A ≠ 0x202 := fun h => hk (Or.inr h)
      have h0 := get_crc_start_value_of_unknown A hnk
      simp [bmw_update_pkt, h0, hnb]

/-- Witness of C32: stamping the gear-display frame 0x3FD with counter 4
changes byte 0 and the low nibble of byte 1 only. -/
theorem stamping_is_confined_witness :
    (bmw_update_pkt (Function.update pkt_counters_init 0x3FD 4) 0x3FD
        [0x00, 0xA0, 0x20, 0x0C, 0xFF] 5).2.length = 5
    ∧ (bmw_update_pkt (Function.update pkt_counters_init 0x3FD 4) 0x3FD
        [0x00, 0xA0, 0x20, 0x0C, 0xFF] 5).2.getD 2 0 = 0x20
    ∧ (bmw_update_pkt (Function.update pkt_counters_init 0x3FD 4) 0x3FD
        [0x00, 0xA0, 0x20, 0x0C, 0xFF] 5).1 0x202 = 0
    ∧ (bmw_update_pkt (Function.update pkt_counters_init 0x3FD 4) 0x3FD
        [0x00, 0xA0, 0x20, 0x0C, 0xFF] 5).2.getD 1 0 / 16 = 0xA := by
  have h := stamping_is_confined (Function.update pkt_counters_init 0x3FD 4) [] 0x3FD
    [0x00, 0xA0, 0x20, 0x0C, 0xFF] 5 (by decide) (by decide)
  exact ⟨h.1, h.2.1 2 (le_refl 2), h.2.2.1 0x202 (by decide), h.2.2.2.1 (by decide)⟩

/-- C33: for every frame identifier and every payload of bytes of length at
least 2 (with a byte as the identifier's counter), `bmw_update_pkt` with every
array access checked returns a result, the one of `bmw_update_pkt`: no access
is out of bounds. The identifiers that pass the unknown-identifier guard are
the 32 seeded ones and 0x202, and each of them is below 0x400, the size of
the counter table. -/
theorem update_pkt_accesses_in_bounds (c : Nat → Nat) (can_id : Nat) (data : List Nat)
    (hlen : 2 ≤ data.length) (hbytes : ∀ b ∈ data, b < 256) (hcounter : c can_id < 256) :
    bmw_update_pkt_checked c can_id data data.length
      = some (bmw_update_pkt c can_id data data.length)
    ∧ (¬ (get_crc_start_value can_id = 0x00 ∧ can_id ≠ 0x202)
        ↔ can_id ∈ known_can_ids ∨ can_id = CAN_ID_BACKLIGHT)
    ∧ (can_id ∈ known_can_ids ∨ can_id = CAN_ID_BACKLIGHT → can_id < 0x400)
    ∧ known_can_ids.length = 32
    ∧ crc_table.length = 256 := by
  refine ⟨?_, guard_passed_iff can_id, ?_, by decide, crc_table_length⟩
  · by_cases hg : get_crc_start_value can_id = 0x00 ∧ can_id ≠ 0x202
    · simp [bmw_update_pkt_checked, bmw_update_pkt, hg]
    · have hid := (guard_passed_iff can_id).1 hg
      have hlt : can_id < 0x400 := by
        rcases hid with hk | hb
        · exact known_can_ids_lt can_id hk
        · rw [hb]; decide
      have h1 : 1 < data.length := by omega
      have hget1 : data[1]? = some data[1] := List.getElem?_eq_getElem h1
      have hgetD : data.getD 1 0 = data[1] := List.getD_eq_getElem _ _ h1
      have hb1 : data[1] < 256 := hbytes _ (List.getElem_mem h1)
      unfold bmw_update_pkt_checked bmw_update_pkt
      simp only []
      rw [if_neg hg, if_neg hg, if_pos hlt, hget1]
      simp only [hgetD]
      by_cases hb : can_id = 0x202
      · rw [if_pos hb, if_pos hb]
      · rw [if_neg hb, if_neg hb]
        have hk : can_id ∈ known_can_ids := by
          rcases hid with hk | hb2
          · exact hk
          · exact absurd hb2 hb
        have hloop := crc_loop_checked_eq (get_crc_start_value can_id)
          (data.set 1 ((data[1] &&& 0xF0) ||| c can_id)) (get_crc_start_value_lt can_id hk)
          (mem_set_lt data 1 _ hbytes (stamped_byte_lt _ _ hb1 hcounter))
        rw [List.length_set] at hloop
        rw [hloop]
        simp only [List.length_set]
        rw [if_pos (by omega)]
  · rintro (hk | hb)
    · exact known_can_ids_lt can_id hk
    · rw [hb]; decide

/-- Witness of C33: the gear-display frame of `main.c` (5 bytes) is stamped
without an out-of-bounds access; a payload of one byte, a byte value above 255
and a data length beyond the payload each give an out-of-bounds access. -/
theorem update_pkt_accesses_in_bounds_witness :
    (bmw_update_pkt_checked pkt_counters_init 0x3FD [0x00, 0x00, 0x20, 0x0C, 0xFF] 5
      = some (bmw_update_pkt pkt_counters_init 0x3FD [0x00, 0x00, 0x20, 0x0C, 0xFF] 5))
    ∧ (bmw_update_pkt_checked pkt_counters_init 0x3FD [0x00] 1).isNone = true
    ∧ (bmw_update_pkt_checked pkt_counters_init 0x3FD [0x00, 0x00, 0x100] 3).isNone = true
    ∧ (bmw_update_pkt_checked pkt_counters_init 0x3FD [0x00, 0x00, 0x20] 4).isNone = true :=
  ⟨(update_pkt_accesses_in_bounds pkt_counters_init 0x3FD [0x00, 0x00, 0x20, 0x0C, 0xFF]
      (by decide) (by decide) (by decide)).1,
   checked_stamp_of_bad_input.1, checked_stamp_of_bad_input.2.1, checked_stamp_of_bad_input.2.2⟩

/-- C34: `crc_table` is a permutation of 0..255 (256 entries, each below 256,
no entry twice, every value below 256 among them), and for every 8-bit seed
and every two byte sequences of equal length that differ in exactly one
position `k`, the fold `crc := crc_table[crc XOR b]` over the two sequences
gives different results, both 8-bit. -/
theorem checksum_detects_single_byte_corruption (seed : Nat) (xs ys : List Nat) (k : Nat)
    (hseed : seed < 256) (hxs : ∀ b ∈ xs, b < 256) (hys : ∀ b ∈ ys, b < 256)
    (hlen : xs.length = ys.length) (hk : k < xs.length)
    (hdiff : xs.getD k 0 ≠ ys.getD k 0)
    (hsame : ∀ i : Nat, i ≠ k → xs.getD i 0 = ys.getD i 0) :
    crc_fold seed xs ≠ crc_fold seed ys
    ∧ crc_fold seed xs < 256
    ∧ crc_fold seed ys < 256
    ∧ crc_table.length = 256
    ∧ crc_table.Nodup
    ∧ (∀ i : Nat, i < 256 → crc_table.getD i 0 < 256)
    ∧ (∀ v : Nat, v < 256 → v ∈ crc_table) :=
  ⟨crc_fold_single_difference xs ys seed k hseed hxs hys hlen hk hdiff hsame,
   crc_fold_lt seed xs hseed hxs, crc_fold_lt seed ys hseed hys,
   crc_table_length, crc_table_nodup, crc_table_lt, crc_table_surjective⟩

/-- Witness of C34: with the seed 0xD7 of the gear-display frame, the bytes
`[0x00, 0x20, 0x0C, 0xFF]` and the same bytes with 0x20 corrupted to 0x21 have
different checksums. -/
theorem checksum_detects_single_byte_corruption_witness :
    crc_fold 0xD7 [0x00, 0x20, 0x0C, 0xFF] ≠ crc_fold 0xD7 [0x00, 0x21, 0x0C, 0xFF] :=
  (checksum_detects_single_byte_corruption 0xD7 [0x00, 0x20, 0x0C, 0xFF]
    [0x00, 0x21, 0x0C, 0xFF] 1 (by decide) (by decide) (by decide) (by decide) (by decide)
    (by decide) (by
      intro i hi
      match i with
      | 0 => rfl
      | 1 => exact absurd rfl hi
      | 2 => rfl
      | 3 => rfl
      | n + 4 => rfl)).1

/-- C35: `crc_table` has 256 entries and for every index `i` in 0..255 the
entry `crc_table[i]` is the result of eight bit steps (shift left modulo 256,
XOR with 0x1D if the bit shifted out was 1) from `i`; hence for every 8-bit
seed and byte sequence the table-driven fold `crc := crc_table[crc XOR b]`
equals the bitwise CRC-8 with polynomial 0x1D. -/
theorem crc_table_is_crc8_poly_0x1D (seed : Nat) (bytes : List Nat) (hseed : seed < 256)
    (hbytes : ∀ b ∈ bytes, b < 256) :
    crc_table.length = 256
    ∧ (∀ i : Nat, i < 256 → crc_table.getD i 0 = crc8_of_index i)
    ∧ crc_fold seed bytes = crc8_bitwise seed bytes :=
  ⟨crc_table_length, crc_table_eq_crc8_of_index,
   crc_fold_eq_crc8_bitwise seed bytes hseed hbytes⟩

/-- Witness of C35: the fold over the bytes 1..4 of a gear-display frame from
the seed 0xD7 equals the bitwise CRC-8 of those bytes. -/
theorem crc_table_is_crc8_poly_0x1D_witness :
    crc_fold 0xD7 [0x00, 0x20, 0x0C, 0xFF] = crc8_bitwise 0xD7 [0x00, 0x20, 0x0C, 0xFF] :=
  (crc_table_is_crc8_poly_0x1D 0xD7 [0x00, 0x20, 0x0C, 0xFF] (by decide) (by decide)).2.2

end SIMShifterBOX
